import Mathlib

/-!
Verification of the scalar-math facade (`src/math.rs`) and the wasm32
`Vec4A` swizzle backend (`src/swizzles/wasm32/vec4a_impl.rs`) of glam-rs.

Modelling conventions:
* SIMD lanes are 32-bit patterns, modelled as `Nat` (no arithmetic is ever
  performed on a lane by a swizzle, only selection).
* IEEE-754 bit-pattern functions (`is_sign_negative_f32`, the default
  `Float::abs`, `Float::signum`, ...) are modelled on raw bit patterns as
  `Nat < 2^32` (resp. `2^64`), with negation, `copysign` and the NaN test
  given their IEEE semantics.
* The exact transcendental calls (`libm::acosf`, `f32::sqrt`, ...) are
  external library code; they are abstracted as function parameters, and the
  rational field `ℚ` stands for the finite floats where real-valued
  arithmetic is concerned.
-/

/-! ## Data model: 128-bit SIMD value and the vector types (wasm32 backend)

`V128` models `core::arch::wasm32::v128` as four 32-bit lanes.
`Vec4A`/`Vec3A` wrap a `v128` (aligned layouts); `Vec2` is two scalars. -/

structure V128 where
  l0 : Nat
  l1 : Nat
  l2 : Nat
  l3 : Nat
deriving DecidableEq, Repr

/-- `Vec4A(v128)`: aligned 4-vector, logical components are lanes 0..3. -/
structure Vec4A where
  v : V128
deriving DecidableEq, Repr

/-- `Vec3A(v128)`: aligned 3-vector, logical components are lanes 0..2;
lane 3 is hidden padding storage. -/
structure Vec3A where
  v : V128
deriving DecidableEq, Repr

/-- `Vec2 { x, y }`: packed 2-vector. -/
structure Vec2 where
  x : Nat
  y : Nat
deriving DecidableEq, Repr

/-- Lane selection of the wasm32 `i32x4_shuffle` intrinsic: indices 0..3
pick lanes of the first operand, 4..7 lanes of the second operand. -/
def laneSel (a b : V128) : Nat → Nat
  | 0 => a.l0
  | 1 => a.l1
  | 2 => a.l2
  | 3 => a.l3
  | 4 => b.l0
  | 5 => b.l1
  | 6 => b.l2
  | _ => b.l3

/-- `core::arch::wasm32::i32x4_shuffle::<I0, I1, I2, I3>(a, b)`: builds a new
`v128` whose lane `k` is the lane named by index `Ik` (per `laneSel`). -/
def i32x4_shuffle (i0 i1 i2 i3 : Nat) (a b : V128) : V128 :=
  ⟨laneSel a b i0, laneSel a b i1, laneSel a b i2, laneSel a b i3⟩

/-- Modelled from the spec: component access on the aligned 4-vector — the
logical components `x, y, z, w` are lanes 0..3 of the backing register
(the accessor impl itself is outside `src/`). -/
def Vec4A.x (s : Vec4A) : Nat := s.v.l0

/-- Modelled from the spec: logical component `y` is lane 1. -/
def Vec4A.y (s : Vec4A) : Nat := s.v.l1

/-- Modelled from the spec: logical component `z` is lane 2. -/
def Vec4A.z (s : Vec4A) : Nat := s.v.l2

/-- Modelled from the spec: logical component `w` is lane 3. -/
def Vec4A.w (s : Vec4A) : Nat := s.v.l3

/-- Modelled from the spec: logical component `x` of `Vec3A` is lane 0. -/
def Vec3A.x (s : Vec3A) : Nat := s.v.l0

/-- Modelled from the spec: logical component `y` of `Vec3A` is lane 1. -/
def Vec3A.y (s : Vec3A) : Nat := s.v.l1

/-- Modelled from the spec: logical component `z` of `Vec3A` is lane 2. -/
def Vec3A.z (s : Vec3A) : Nat := s.v.l2

/-- The logical components of a `Vec3A` as a tuple (padding lane excluded). -/
def Vec3A.logical (s : Vec3A) : Nat × Nat × Nat := (s.x, s.y, s.z)

/-- The logical components of a `Vec4A` as a tuple. -/
def Vec4A.logical (s : Vec4A) : Nat × Nat × Nat × Nat := (s.x, s.y, s.z, s.w)

/-- The hidden padding lane (lane 3) of a `Vec3A` result. -/
def Vec3A.padding (s : Vec3A) : Nat := s.v.l3

/-! ## All 336 swizzle methods of `impl Vec4Swizzles for Vec4A` (wasm32) -/

def Vec4A.xx (s : Vec4A) : Vec2 := ⟨s.x, s.x⟩

def Vec4A.xy (s : Vec4A) : Vec2 := ⟨s.x, s.y⟩

def Vec4A.xz (s : Vec4A) : Vec2 := ⟨s.x, s.z⟩

def Vec4A.xw (s : Vec4A) : Vec2 := ⟨s.x, s.w⟩

def Vec4A.yx (s : Vec4A) : Vec2 := ⟨s.y, s.x⟩

def Vec4A.yy (s : Vec4A) : Vec2 := ⟨s.y, s.y⟩

def Vec4A.yz (s : Vec4A) : Vec2 := ⟨s.y, s.z⟩

def Vec4A.yw (s : Vec4A) : Vec2 := ⟨s.y, s.w⟩

def Vec4A.zx (s : Vec4A) : Vec2 := ⟨s.z, s.x⟩

def Vec4A.zy (s : Vec4A) : Vec2 := ⟨s.z, s.y⟩

def Vec4A.zz (s : Vec4A) : Vec2 := ⟨s.z, s.z⟩

def Vec4A.zw (s : Vec4A) : Vec2 := ⟨s.z, s.w⟩

def Vec4A.wx (s : Vec4A) : Vec2 := ⟨s.w, s.x⟩

def Vec4A.wy (s : Vec4A) : Vec2 := ⟨s.w, s.y⟩

def Vec4A.wz (s : Vec4A) : Vec2 := ⟨s.w, s.z⟩

def Vec4A.ww (s : Vec4A) : Vec2 := ⟨s.w, s.w⟩

def Vec4A.xxx (s : Vec4A) : Vec3A := ⟨i32x4_shuffle 0 0 4 4 s.v s.v⟩

def Vec4A.xxy (s : Vec4A) : Vec3A := ⟨i32x4_shuffle 0 0 5 4 s.v s.v⟩

def Vec4A.xxz (s : Vec4A) : Vec3A := ⟨i32x4_shuffle 0 0 6 4 s.v s.v⟩

def Vec4A.xxw (s : Vec4A) : Vec3A := ⟨i32x4_shuffle 0 0 7 4 s.v s.v⟩

def Vec4A.xyx (s : Vec4A) : Vec3A := ⟨i32x4_shuffle 0 1 4 4 s.v s.v⟩

def Vec4A.xyy (s : Vec4A) : Vec3A := ⟨i32x4_shuffle 0 1 5 4 s.v s.v⟩

def Vec4A.xyz (s : Vec4A) : Vec3A := ⟨i32x4_shuffle 0 1 6 4 s.v s.v⟩

def Vec4A.xyw (s : Vec4A) : Vec3A := ⟨i32x4_shuffle 0 1 7 4 s.v s.v⟩

def Vec4A.xzx (s : Vec4A) : Vec3A := ⟨i32x4_shuffle 0 2 4 4 s.v s.v⟩

def Vec4A.xzy (s : Vec4A) : Vec3A := ⟨i32x4_shuffle 0 2 5 4 s.v s.v⟩

def Vec4A.xzz (s : Vec4A) : Vec3A := ⟨i32x4_shuffle 0 2 6 4 s.v s.v⟩

def Vec4A.xzw (s : Vec4A) : Vec3A := ⟨i32x4_shuffle 0 2 7 4 s.v s.v⟩

def Vec4A.xwx (s : Vec4A) : Vec3A := ⟨i32x4_shuffle 0 3 4 4 s.v s.v⟩

def Vec4A.xwy (s : Vec4A) : Vec3A := ⟨i32x4_shuffle 0 3 5 4 s.v s.v⟩

def Vec4A.xwz (s : Vec4A) : Vec3A := ⟨i32x4_shuffle 0 3 6 4 s.v s.v⟩

def Vec4A.xww (s : Vec4A) : Vec3A := ⟨i32x4_shuffle 0 3 7 4 s.v s.v⟩

def Vec4A.yxx (s : Vec4A) : Vec3A := ⟨i32x4_shuffle 1 0 4 4 s.v s.v⟩

def Vec4A.yxy (s : Vec4A) : Vec3A := ⟨i32x4_shuffle 1 0 5 4 s.v s.v⟩

def Vec4A.yxz (s : Vec4A) : Vec3A := ⟨i32x4_shuffle 1 0 6 4 s.v s.v⟩

def Vec4A.yxw (s : Vec4A) : Vec3A := ⟨i32x4_shuffle 1 0 7 4 s.v s.v⟩

def Vec4A.yyx (s : Vec4A) : Vec3A := ⟨i32x4_shuffle 1 1 4 4 s.v s.v⟩

def Vec4A.yyy (s : Vec4A) : Vec3A := ⟨i32x4_shuffle 1 1 5 4 s.v s.v⟩

def Vec4A.yyz (s : Vec4A) : Vec3A := ⟨i32x4_shuffle 1 1 6 4 s.v s.v⟩

def Vec4A.yyw (s : Vec4A) : Vec3A := ⟨i32x4_shuffle 1 1 7 4 s.v s.v⟩

def Vec4A.yzx (s : Vec4A) : Vec3A := ⟨i32x4_shuffle 1 2 4 4 s.v s.v⟩

def Vec4A.yzy (s : Vec4A) : Vec3A := ⟨i32x4_shuffle 1 2 5 4 s.v s.v⟩

def Vec4A.yzz (s : Vec4A) : Vec3A := ⟨i32x4_shuffle 1 2 6 4 s.v s.v⟩

def Vec4A.yzw (s : Vec4A) : Vec3A := ⟨i32x4_shuffle 1 2 7 4 s.v s.v⟩

def Vec4A.ywx (s : Vec4A) : Vec3A := ⟨i32x4_shuffle 1 3 4 4 s.v s.v⟩

def Vec4A.ywy (s : Vec4A) : Vec3A := ⟨i32x4_shuffle 1 3 5 4 s.v s.v⟩

def Vec4A.ywz (s : Vec4A) : Vec3A := ⟨i32x4_shuffle 1 3 6 4 s.v s.v⟩

def Vec4A.yww (s : Vec4A) : Vec3A := ⟨i32x4_shuffle 1 3 7 4 s.v s.v⟩

def Vec4A.zxx (s : Vec4A) : Vec3A := ⟨i32x4_shuffle 2 0 4 4 s.v s.v⟩

def Vec4A.zxy (s : Vec4A) : Vec3A := ⟨i32x4_shuffle 2 0 5 4 s.v s.v⟩

def Vec4A.zxz (s : Vec4A) : Vec3A := ⟨i32x4_shuffle 2 0 6 4 s.v s.v⟩

def Vec4A.zxw (s : Vec4A) : Vec3A := ⟨i32x4_shuffle 2 0 7 4 s.v s.v⟩

def Vec4A.zyx (s : Vec4A) : Vec3A := ⟨i32x4_shuffle 2 1 4 4 s.v s.v⟩

def Vec4A.zyy (s : Vec4A) : Vec3A := ⟨i32x4_shuffle 2 1 5 4 s.v s.v⟩

def Vec4A.zyz (s : Vec4A) : Vec3A := ⟨i32x4_shuffle 2 1 6 4 s.v s.v⟩

def Vec4A.zyw (s : Vec4A) : Vec3A := ⟨i32x4_shuffle 2 1 7 4 s.v s.v⟩

def Vec4A.zzx (s : Vec4A) : Vec3A := ⟨i32x4_shuffle 2 2 4 4 s.v s.v⟩

def Vec4A.zzy (s : Vec4A) : Vec3A := ⟨i32x4_shuffle 2 2 5 4 s.v s.v⟩

def Vec4A.zzz (s : Vec4A) : Vec3A := ⟨i32x4_shuffle 2 2 6 4 s.v s.v⟩

def Vec4A.zzw (s : Vec4A) : Vec3A := ⟨i32x4_shuffle 2 2 7 4 s.v s.v⟩

def Vec4A.zwx (s : Vec4A) : Vec3A := ⟨i32x4_shuffle 2 3 4 4 s.v s.v⟩

def Vec4A.zwy (s : Vec4A) : Vec3A := ⟨i32x4_shuffle 2 3 5 4 s.v s.v⟩

def Vec4A.zwz (s : Vec4A) : Vec3A := ⟨i32x4_shuffle 2 3 6 4 s.v s.v⟩

def Vec4A.zww (s : Vec4A) : Vec3A := ⟨i32x4_shuffle 2 3 7 4 s.v s.v⟩

def Vec4A.wxx (s : Vec4A) : Vec3A := ⟨i32x4_shuffle 3 0 4 4 s.v s.v⟩

def Vec4A.wxy (s : Vec4A) : Vec3A := ⟨i32x4_shuffle 3 0 5 4 s.v s.v⟩

def Vec4A.wxz (s : Vec4A) : Vec3A := ⟨i32x4_shuffle 3 0 6 4 s.v s.v⟩

def Vec4A.wxw (s : Vec4A) : Vec3A := ⟨i32x4_shuffle 3 0 7 4 s.v s.v⟩

def Vec4A.wyx (s : Vec4A) : Vec3A := ⟨i32x4_shuffle 3 1 4 4 s.v s.v⟩

def Vec4A.wyy (s : Vec4A) : Vec3A := ⟨i32x4_shuffle 3 1 5 4 s.v s.v⟩

def Vec4A.wyz (s : Vec4A) : Vec3A := ⟨i32x4_shuffle 3 1 6 4 s.v s.v⟩

def Vec4A.wyw (s : Vec4A) : Vec3A := ⟨i32x4_shuffle 3 1 7 4 s.v s.v⟩

def Vec4A.wzx (s : Vec4A) : Vec3A := ⟨i32x4_shuffle 3 2 4 4 s.v s.v⟩

def Vec4A.wzy (s : Vec4A) : Vec3A := ⟨i32x4_shuffle 3 2 5 4 s.v s.v⟩

def Vec4A.wzz (s : Vec4A) : Vec3A := ⟨i32x4_shuffle 3 2 6 4 s.v s.v⟩

def Vec4A.wzw (s : Vec4A) : Vec3A := ⟨i32x4_shuffle 3 2 7 4 s.v s.v⟩

def Vec4A.wwx (s : Vec4A) : Vec3A := ⟨i32x4_shuffle 3 3 4 4 s.v s.v⟩

def Vec4A.wwy (s : Vec4A) : Vec3A := ⟨i32x4_shuffle 3 3 5 4 s.v s.v⟩

def Vec4A.wwz (s : Vec4A) : Vec3A := ⟨i32x4_shuffle 3 3 6 4 s.v s.v⟩

def Vec4A.www (s : Vec4A) : Vec3A := ⟨i32x4_shuffle 3 3 7 4 s.v s.v⟩

def Vec4A.xxxx (s : Vec4A) : Vec4A := ⟨i32x4_shuffle 0 0 4 4 s.v s.v⟩

def Vec4A.xxxy (s : Vec4A) : Vec4A := ⟨i32x4_shuffle 0 0 4 5 s.v s.v⟩

def Vec4A.xxxz (s : Vec4A) : Vec4A := ⟨i32x4_shuffle 0 0 4 6 s.v s.v⟩

def Vec4A.xxxw (s : Vec4A) : Vec4A := ⟨i32x4_shuffle 0 0 4 7 s.v s.v⟩

def Vec4A.xxyx (s : Vec4A) : Vec4A := ⟨i32x4_shuffle 0 0 5 4 s.v s.v⟩

def Vec4A.xxyy (s : Vec4A) : Vec4A := ⟨i32x4_shuffle 0 0 5 5 s.v s.v⟩

def Vec4A.xxyz (s : Vec4A) : Vec4A := ⟨i32x4_shuffle 0 0 5 6 s.v s.v⟩

def Vec4A.xxyw (s : Vec4A) : Vec4A := ⟨i32x4_shuffle 0 0 5 7 s.v s.v⟩

def Vec4A.xxzx (s : Vec4A) : Vec4A := ⟨i32x4_shuffle 0 0 6 4 s.v s.v⟩

def Vec4A.xxzy (s : Vec4A) : Vec4A := ⟨i32x4_shuffle 0 0 6 5 s.v s.v⟩

def Vec4A.xxzz (s : Vec4A) : Vec4A := ⟨i32x4_shuffle 0 0 6 6 s.v s.v⟩

def Vec4A.xxzw (s : Vec4A) : Vec4A := ⟨i32x4_shuffle 0 0 6 7 s.v s.v⟩

def Vec4A.xxwx (s : Vec4A) : Vec4A := ⟨i32x4_shuffle 0 0 7 4 s.v s.v⟩

def Vec4A.xxwy (s : Vec4A) : Vec4A := ⟨i32x4_shuffle 0 0 7 5 s.v s.v⟩

def Vec4A.xxwz (s : Vec4A) : Vec4A := ⟨i32x4_shuffle 0 0 7 6 s.v s.v⟩

def Vec4A.xxww (s : Vec4A) : Vec4A := ⟨i32x4_shuffle 0 0 7 7 s.v s.v⟩

def Vec4A.xyxx (s : Vec4A) : Vec4A := ⟨i32x4_shuffle 0 1 4 4 s.v s.v⟩

def Vec4A.xyxy (s : Vec4A) : Vec4A := ⟨i32x4_shuffle 0 1 4 5 s.v s.v⟩

def Vec4A.xyxz (s : Vec4A) : Vec4A := ⟨i32x4_shuffle 0 1 4 6 s.v s.v⟩

def Vec4A.xyxw (s : Vec4A) : Vec4A := ⟨i32x4_shuffle 0 1 4 7 s.v s.v⟩

def Vec4A.xyyx (s : Vec4A) : Vec4A := ⟨i32x4_shuffle 0 1 5 4 s.v s.v⟩

def Vec4A.xyyy (s : Vec4A) : Vec4A := ⟨i32x4_shuffle 0 1 5 5 s.v s.v⟩

def Vec4A.xyyz (s : Vec4A) : Vec4A := ⟨i32x4_shuffle 0 1 5 6 s.v s.v⟩

def Vec4A.xyyw (s : Vec4A) : Vec4A := ⟨i32x4_shuffle 0 1 5 7 s.v s.v⟩

def Vec4A.xyzx (s : Vec4A) : Vec4A := ⟨i32x4_shuffle 0 1 6 4 s.v s.v⟩

def Vec4A.xyzy (s : Vec4A) : Vec4A := ⟨i32x4_shuffle 0 1 6 5 s.v s.v⟩

def Vec4A.xyzz (s : Vec4A) : Vec4A := ⟨i32x4_shuffle 0 1 6 6 s.v s.v⟩

def Vec4A.xyzw (s : Vec4A) : Vec4A := ⟨i32x4_shuffle 0 1 6 7 s.v s.v⟩

def Vec4A.xywx (s : Vec4A) : Vec4A := ⟨i32x4_shuffle 0 1 7 4 s.v s.v⟩

def Vec4A.xywy (s : Vec4A) : Vec4A := ⟨i32x4_shuffle 0 1 7 5 s.v s.v⟩

def Vec4A.xywz (s : Vec4A) : Vec4A := ⟨i32x4_shuffle 0 1 7 6 s.v s.v⟩

def Vec4A.xyww (s : Vec4A) : Vec4A := ⟨i32x4_shuffle 0 1 7 7 s.v s.v⟩

def Vec4A.xzxx (s : Vec4A) : Vec4A := ⟨i32x4_shuffle 0 2 4 4 s.v s.v⟩

def Vec4A.xzxy (s : Vec4A) : Vec4A := ⟨i32x4_shuffle 0 2 4 5 s.v s.v⟩

def Vec4A.xzxz (s : Vec4A) : Vec4A := ⟨i32x4_shuffle 0 2 4 6 s.v s.v⟩

def Vec4A.xzxw (s : Vec4A) : Vec4A := ⟨i32x4_shuffle 0 2 4 7 s.v s.v⟩

def Vec4A.xzyx (s : Vec4A) : Vec4A := ⟨i32x4_shuffle 0 2 5 4 s.v s.v⟩

def Vec4A.xzyy (s : Vec4A) : Vec4A := ⟨i32x4_shuffle 0 2 5 5 s.v s.v⟩

def Vec4A.xzyz (s : Vec4A) : Vec4A := ⟨i32x4_shuffle 0 2 5 6 s.v s.v⟩

def Vec4A.xzyw (s : Vec4A) : Vec4A := ⟨i32x4_shuffle 0 2 5 7 s.v s.v⟩

def Vec4A.xzzx (s : Vec4A) : Vec4A := ⟨i32x4_shuffle 0 2 6 4 s.v s.v⟩

def Vec4A.xzzy (s : Vec4A) : Vec4A := ⟨i32x4_shuffle 0 2 6 5 s.v s.v⟩

def Vec4A.xzzz (s : Vec4A) : Vec4A := ⟨i32x4_shuffle 0 2 6 6 s.v s.v⟩

def Vec4A.xzzw (s : Vec4A) : Vec4A := ⟨i32x4_shuffle 0 2 6 7 s.v s.v⟩

def Vec4A.xzwx (s : Vec4A) : Vec4A := ⟨i32x4_shuffle 0 2 7 4 s.v s.v⟩

def Vec4A.xzwy (s : Vec4A) : Vec4A := ⟨i32x4_shuffle 0 2 7 5 s.v s.v⟩

def Vec4A.xzwz (s : Vec4A) : Vec4A := ⟨i32x4_shuffle 0 2 7 6 s.v s.v⟩

def Vec4A.xzww (s : Vec4A) : Vec4A := ⟨i32x4_shuffle 0 2 7 7 s.v s.v⟩

def Vec4A.xwxx (s : Vec4A) : Vec4A := ⟨i32x4_shuffle 0 3 4 4 s.v s.v⟩

def Vec4A.xwxy (s : Vec4A) : Vec4A := ⟨i32x4_shuffle 0 3 4 5 s.v s.v⟩

def Vec4A.xwxz (s : Vec4A) : Vec4A := ⟨i32x4_shuffle 0 3 4 6 s.v s.v⟩

def Vec4A.xwxw (s : Vec4A) : Vec4A := ⟨i32x4_shuffle 0 3 4 7 s.v s.v⟩

def Vec4A.xwyx (s : Vec4A) : Vec4A := ⟨i32x4_shuffle 0 3 5 4 s.v s.v⟩

def Vec4A.xwyy (s : Vec4A) : Vec4A := ⟨i32x4_shuffle 0 3 5 5 s.v s.v⟩

def Vec4A.xwyz (s : Vec4A) : Vec4A := ⟨i32x4_shuffle 0 3 5 6 s.v s.v⟩

def Vec4A.xwyw (s : Vec4A) : Vec4A := ⟨i32x4_shuffle 0 3 5 7 s.v s.v⟩

def Vec4A.xwzx (s : Vec4A) : Vec4A := ⟨i32x4_shuffle 0 3 6 4 s.v s.v⟩

def Vec4A.xwzy (s : Vec4A) : Vec4A := ⟨i32x4_shuffle 0 3 6 5 s.v s.v⟩

def Vec4A.xwzz (s : Vec4A) : Vec4A := ⟨i32x4_shuffle 0 3 6 6 s.v s.v⟩

def Vec4A.xwzw (s : Vec4A) : Vec4A := ⟨i32x4_shuffle 0 3 6 7 s.v s.v⟩

def Vec4A.xwwx (s : Vec4A) : Vec4A := ⟨i32x4_shuffle 0 3 7 4 s.v s.v⟩

def Vec4A.xwwy (s : Vec4A) : Vec4A := ⟨i32x4_shuffle 0 3 7 5 s.v s.v⟩

def Vec4A.xwwz (s : Vec4A) : Vec4A := ⟨i32x4_shuffle 0 3 7 6 s.v s.v⟩

def Vec4A.xwww (s : Vec4A) : Vec4A := ⟨i32x4_shuffle 0 3 7 7 s.v s.v⟩

def Vec4A.yxxx (s : Vec4A) : Vec4A := ⟨i32x4_shuffle 1 0 4 4 s.v s.v⟩

def Vec4A.yxxy (s : Vec4A) : Vec4A := ⟨i32x4_shuffle 1 0 4 5 s.v s.v⟩

def Vec4A.yxxz (s : Vec4A) : Vec4A := ⟨i32x4_shuffle 1 0 4 6 s.v s.v⟩

def Vec4A.yxxw (s : Vec4A) : Vec4A := ⟨i32x4_shuffle 1 0 4 7 s.v s.v⟩

def Vec4A.yxyx (s : Vec4A) : Vec4A := ⟨i32x4_shuffle 1 0 5 4 s.v s.v⟩

def Vec4A.yxyy (s : Vec4A) : Vec4A := ⟨i32x4_shuffle 1 0 5 5 s.v s.v⟩

def Vec4A.yxyz (s : Vec4A) : Vec4A := ⟨i32x4_shuffle 1 0 5 6 s.v s.v⟩

def Vec4A.yxyw (s : Vec4A) : Vec4A := ⟨i32x4_shuffle 1 0 5 7 s.v s.v⟩

def Vec4A.yxzx (s : Vec4A) : Vec4A := ⟨i32x4_shuffle 1 0 6 4 s.v s.v⟩

def Vec4A.yxzy (s : Vec4A) : Vec4A := ⟨i32x4_shuffle 1 0 6 5 s.v s.v⟩

def Vec4A.yxzz (s : Vec4A) : Vec4A := ⟨i32x4_shuffle 1 0 6 6 s.v s.v⟩

def Vec4A.yxzw (s : Vec4A) : Vec4A := ⟨i32x4_shuffle 1 0 6 7 s.v s.v⟩

def Vec4A.yxwx (s : Vec4A) : Vec4A := ⟨i32x4_shuffle 1 0 7 4 s.v s.v⟩

def Vec4A.yxwy (s : Vec4A) : Vec4A := ⟨i32x4_shuffle 1 0 7 5 s.v s.v⟩

def Vec4A.yxwz (s : Vec4A) : Vec4A := ⟨i32x4_shuffle 1 0 7 6 s.v s.v⟩

def Vec4A.yxww (s : Vec4A) : Vec4A := ⟨i32x4_shuffle 1 0 7 7 s.v s.v⟩

def Vec4A.yyxx (s : Vec4A) : Vec4A := ⟨i32x4_shuffle 1 1 4 4 s.v s.v⟩

def Vec4A.yyxy (s : Vec4A) : Vec4A := ⟨i32x4_shuffle 1 1 4 5 s.v s.v⟩

def Vec4A.yyxz (s : Vec4A) : Vec4A := ⟨i32x4_shuffle 1 1 4 6 s.v s.v⟩

def Vec4A.yyxw (s : Vec4A) : Vec4A := ⟨i32x4_shuffle 1 1 4 7 s.v s.v⟩

def Vec4A.yyyx (s : Vec4A) : Vec4A := ⟨i32x4_shuffle 1 1 5 4 s.v s.v⟩

def Vec4A.yyyy (s : Vec4A) : Vec4A := ⟨i32x4_shuffle 1 1 5 5 s.v s.v⟩

def Vec4A.yyyz (s : Vec4A) : Vec4A := ⟨i32x4_shuffle 1 1 5 6 s.v s.v⟩

def Vec4A.yyyw (s : Vec4A) : Vec4A := ⟨i32x4_shuffle 1 1 5 7 s.v s.v⟩

def Vec4A.yyzx (s : Vec4A) : Vec4A := ⟨i32x4_shuffle 1 1 6 4 s.v s.v⟩

def Vec4A.yyzy (s : Vec4A) : Vec4A := ⟨i32x4_shuffle 1 1 6 5 s.v s.v⟩

def Vec4A.yyzz (s : Vec4A) : Vec4A := ⟨i32x4_shuffle 1 1 6 6 s.v s.v⟩

def Vec4A.yyzw (s : Vec4A) : Vec4A := ⟨i32x4_shuffle 1 1 6 7 s.v s.v⟩

def Vec4A.yywx (s : Vec4A) : Vec4A := ⟨i32x4_shuffle 1 1 7 4 s.v s.v⟩

def Vec4A.yywy (s : Vec4A) : Vec4A := ⟨i32x4_shuffle 1 1 7 5 s.v s.v⟩

def Vec4A.yywz (s : Vec4A) : Vec4A := ⟨i32x4_shuffle 1 1 7 6 s.v s.v⟩

def Vec4A.yyww (s : Vec4A) : Vec4A := ⟨i32x4_shuffle 1 1 7 7 s.v s.v⟩

def Vec4A.yzxx (s : Vec4A) : Vec4A := ⟨i32x4_shuffle 1 2 4 4 s.v s.v⟩

def Vec4A.yzxy (s : Vec4A) : Vec4A := ⟨i32x4_shuffle 1 2 4 5 s.v s.v⟩

def Vec4A.yzxz (s : Vec4A) : Vec4A := ⟨i32x4_shuffle 1 2 4 6 s.v s.v⟩

def Vec4A.yzxw (s : Vec4A) : Vec4A := ⟨i32x4_shuffle 1 2 4 7 s.v s.v⟩

def Vec4A.yzyx (s : Vec4A) : Vec4A := ⟨i32x4_shuffle 1 2 5 4 s.v s.v⟩

def Vec4A.yzyy (s : Vec4A) : Vec4A := ⟨i32x4_shuffle 1 2 5 5 s.v s.v⟩

def Vec4A.yzyz (s : Vec4A) : Vec4A := ⟨i32x4_shuffle 1 2 5 6 s.v s.v⟩

def Vec4A.yzyw (s : Vec4A) : Vec4A := ⟨i32x4_shuffle 1 2 5 7 s.v s.v⟩

def Vec4A.yzzx (s : Vec4A) : Vec4A := ⟨i32x4_shuffle 1 2 6 4 s.v s.v⟩

def Vec4A.yzzy (s : Vec4A) : Vec4A := ⟨i32x4_shuffle 1 2 6 5 s.v s.v⟩

def Vec4A.yzzz (s : Vec4A) : Vec4A := ⟨i32x4_shuffle 1 2 6 6 s.v s.v⟩

def Vec4A.yzzw (s : Vec4A) : Vec4A := ⟨i32x4_shuffle 1 2 6 7 s.v s.v⟩

def Vec4A.yzwx (s : Vec4A) : Vec4A := ⟨i32x4_shuffle 1 2 7 4 s.v s.v⟩

def Vec4A.yzwy (s : Vec4A) : Vec4A := ⟨i32x4_shuffle 1 2 7 5 s.v s.v⟩

def Vec4A.yzwz (s : Vec4A) : Vec4A := ⟨i32x4_shuffle 1 2 7 6 s.v s.v⟩

def Vec4A.yzww (s : Vec4A) : Vec4A := ⟨i32x4_shuffle 1 2 7 7 s.v s.v⟩

def Vec4A.ywxx (s : Vec4A) : Vec4A := ⟨i32x4_shuffle 1 3 4 4 s.v s.v⟩

def Vec4A.ywxy (s : Vec4A) : Vec4A := ⟨i32x4_shuffle 1 3 4 5 s.v s.v⟩

def Vec4A.ywxz (s : Vec4A) : Vec4A := ⟨i32x4_shuffle 1 3 4 6 s.v s.v⟩

def Vec4A.ywxw (s : Vec4A) : Vec4A := ⟨i32x4_shuffle 1 3 4 7 s.v s.v⟩

def Vec4A.ywyx (s : Vec4A) : Vec4A := ⟨i32x4_shuffle 1 3 5 4 s.v s.v⟩

def Vec4A.ywyy (s : Vec4A) : Vec4A := ⟨i32x4_shuffle 1 3 5 5 s.v s.v⟩

def Vec4A.ywyz (s : Vec4A) : Vec4A := ⟨i32x4_shuffle 1 3 5 6 s.v s.v⟩

def Vec4A.ywyw (s : Vec4A) : Vec4A := ⟨i32x4_shuffle 1 3 5 7 s.v s.v⟩

def Vec4A.ywzx (s : Vec4A) : Vec4A := ⟨i32x4_shuffle 1 3 6 4 s.v s.v⟩

def Vec4A.ywzy (s : Vec4A) : Vec4A := ⟨i32x4_shuffle 1 3 6 5 s.v s.v⟩

def Vec4A.ywzz (s : Vec4A) : Vec4A := ⟨i32x4_shuffle 1 3 6 6 s.v s.v⟩

def Vec4A.ywzw (s : Vec4A) : Vec4A := ⟨i32x4_shuffle 1 3 6 7 s.v s.v⟩

def Vec4A.ywwx (s : Vec4A) : Vec4A := ⟨i32x4_shuffle 1 3 7 4 s.v s.v⟩

def Vec4A.ywwy (s : Vec4A) : Vec4A := ⟨i32x4_shuffle 1 3 7 5 s.v s.v⟩

def Vec4A.ywwz (s : Vec4A) : Vec4A := ⟨i32x4_shuffle 1 3 7 6 s.v s.v⟩

def Vec4A.ywww (s : Vec4A) : Vec4A := ⟨i32x4_shuffle 1 3 7 7 s.v s.v⟩

def Vec4A.zxxx (s : Vec4A) : Vec4A := ⟨i32x4_shuffle 2 0 4 4 s.v s.v⟩

def Vec4A.zxxy (s : Vec4A) : Vec4A := ⟨i32x4_shuffle 2 0 4 5 s.v s.v⟩

def Vec4A.zxxz (s : Vec4A) : Vec4A := ⟨i32x4_shuffle 2 0 4 6 s.v s.v⟩

def Vec4A.zxxw (s : Vec4A) : Vec4A := ⟨i32x4_shuffle 2 0 4 7 s.v s.v⟩

def Vec4A.zxyx (s : Vec4A) : Vec4A := ⟨i32x4_shuffle 2 0 5 4 s.v s.v⟩

def Vec4A.zxyy (s : Vec4A) : Vec4A := ⟨i32x4_shuffle 2 0 5 5 s.v s.v⟩

def Vec4A.zxyz (s : Vec4A) : Vec4A := ⟨i32x4_shuffle 2 0 5 6 s.v s.v⟩

def Vec4A.zxyw (s : Vec4A) : Vec4A := ⟨i32x4_shuffle 2 0 5 7 s.v s.v⟩

def Vec4A.zxzx (s : Vec4A) : Vec4A := ⟨i32x4_shuffle 2 0 6 4 s.v s.v⟩

def Vec4A.zxzy (s : Vec4A) : Vec4A := ⟨i32x4_shuffle 2 0 6 5 s.v s.v⟩

def Vec4A.zxzz (s : Vec4A) : Vec4A := ⟨i32x4_shuffle 2 0 6 6 s.v s.v⟩

def Vec4A.zxzw (s : Vec4A) : Vec4A := ⟨i32x4_shuffle 2 0 6 7 s.v s.v⟩

def Vec4A.zxwx (s : Vec4A) : Vec4A := ⟨i32x4_shuffle 2 0 7 4 s.v s.v⟩

def Vec4A.zxwy (s : Vec4A) : Vec4A := ⟨i32x4_shuffle 2 0 7 5 s.v s.v⟩

def Vec4A.zxwz (s : Vec4A) : Vec4A := ⟨i32x4_shuffle 2 0 7 6 s.v s.v⟩

def Vec4A.zxww (s : Vec4A) : Vec4A := ⟨i32x4_shuffle 2 0 7 7 s.v s.v⟩

def Vec4A.zyxx (s : Vec4A) : Vec4A := ⟨i32x4_shuffle 2 1 4 4 s.v s.v⟩

def Vec4A.zyxy (s : Vec4A) : Vec4A := ⟨i32x4_shuffle 2 1 4 5 s.v s.v⟩

def Vec4A.zyxz (s : Vec4A) : Vec4A := ⟨i32x4_shuffle 2 1 4 6 s.v s.v⟩

def Vec4A.zyxw (s : Vec4A) : Vec4A := ⟨i32x4_shuffle 2 1 4 7 s.v s.v⟩

def Vec4A.zyyx (s : Vec4A) : Vec4A := ⟨i32x4_shuffle 2 1 5 4 s.v s.v⟩

def Vec4A.zyyy (s : Vec4A) : Vec4A := ⟨i32x4_shuffle 2 1 5 5 s.v s.v⟩

def Vec4A.zyyz (s : Vec4A) : Vec4A := ⟨i32x4_shuffle 2 1 5 6 s.v s.v⟩

def Vec4A.zyyw (s : Vec4A) : Vec4A := ⟨i32x4_shuffle 2 1 5 7 s.v s.v⟩

def Vec4A.zyzx (s : Vec4A) : Vec4A := ⟨i32x4_shuffle 2 1 6 4 s.v s.v⟩

def Vec4A.zyzy (s : Vec4A) : Vec4A := ⟨i32x4_shuffle 2 1 6 5 s.v s.v⟩

def Vec4A.zyzz (s : Vec4A) : Vec4A := ⟨i32x4_shuffle 2 1 6 6 s.v s.v⟩

def Vec4A.zyzw (s : Vec4A) : Vec4A := ⟨i32x4_shuffle 2 1 6 7 s.v s.v⟩

def Vec4A.zywx (s : Vec4A) : Vec4A := ⟨i32x4_shuffle 2 1 7 4 s.v s.v⟩

def Vec4A.zywy (s : Vec4A) : Vec4A := ⟨i32x4_shuffle 2 1 7 5 s.v s.v⟩

def Vec4A.zywz (s : Vec4A) : Vec4A := ⟨i32x4_shuffle 2 1 7 6 s.v s.v⟩

def Vec4A.zyww (s : Vec4A) : Vec4A := ⟨i32x4_shuffle 2 1 7 7 s.v s.v⟩

def Vec4A.zzxx (s : Vec4A) : Vec4A := ⟨i32x4_shuffle 2 2 4 4 s.v s.v⟩

def Vec4A.zzxy (s : Vec4A) : Vec4A := ⟨i32x4_shuffle 2 2 4 5 s.v s.v⟩

def Vec4A.zzxz (s : Vec4A) : Vec4A := ⟨i32x4_shuffle 2 2 4 6 s.v s.v⟩

def Vec4A.zzxw (s : Vec4A) : Vec4A := ⟨i32x4_shuffle 2 2 4 7 s.v s.v⟩

def Vec4A.zzyx (s : Vec4A) : Vec4A := ⟨i32x4_shuffle 2 2 5 4 s.v s.v⟩

def Vec4A.zzyy (s : Vec4A) : Vec4A := ⟨i32x4_shuffle 2 2 5 5 s.v s.v⟩

def Vec4A.zzyz (s : Vec4A) : Vec4A := ⟨i32x4_shuffle 2 2 5 6 s.v s.v⟩

def Vec4A.zzyw (s : Vec4A) : Vec4A := ⟨i32x4_shuffle 2 2 5 7 s.v s.v⟩

def Vec4A.zzzx (s : Vec4A) : Vec4A := ⟨i32x4_shuffle 2 2 6 4 s.v s.v⟩

def Vec4A.zzzy (s : Vec4A) : Vec4A := ⟨i32x4_shuffle 2 2 6 5 s.v s.v⟩

def Vec4A.zzzz (s : Vec4A) : Vec4A := ⟨i32x4_shuffle 2 2 6 6 s.v s.v⟩

def Vec4A.zzzw (s : Vec4A) : Vec4A := ⟨i32x4_shuffle 2 2 6 7 s.v s.v⟩

def Vec4A.zzwx (s : Vec4A) : Vec4A := ⟨i32x4_shuffle 2 2 7 4 s.v s.v⟩

def Vec4A.zzwy (s : Vec4A) : Vec4A := ⟨i32x4_shuffle 2 2 7 5 s.v s.v⟩

def Vec4A.zzwz (s : Vec4A) : Vec4A := ⟨i32x4_shuffle 2 2 7 6 s.v s.v⟩

def Vec4A.zzww (s : Vec4A) : Vec4A := ⟨i32x4_shuffle 2 2 7 7 s.v s.v⟩

def Vec4A.zwxx (s : Vec4A) : Vec4A := ⟨i32x4_shuffle 2 3 4 4 s.v s.v⟩

def Vec4A.zwxy (s : Vec4A) : Vec4A := ⟨i32x4_shuffle 2 3 4 5 s.v s.v⟩

def Vec4A.zwxz (s : Vec4A) : Vec4A := ⟨i32x4_shuffle 2 3 4 6 s.v s.v⟩

def Vec4A.zwxw (s : Vec4A) : Vec4A := ⟨i32x4_shuffle 2 3 4 7 s.v s.v⟩

def Vec4A.zwyx (s : Vec4A) : Vec4A := ⟨i32x4_shuffle 2 3 5 4 s.v s.v⟩

def Vec4A.zwyy (s : Vec4A) : Vec4A := ⟨i32x4_shuffle 2 3 5 5 s.v s.v⟩

def Vec4A.zwyz (s : Vec4A) : Vec4A := ⟨i32x4_shuffle 2 3 5 6 s.v s.v⟩

def Vec4A.zwyw (s : Vec4A) : Vec4A := ⟨i32x4_shuffle 2 3 5 7 s.v s.v⟩

def Vec4A.zwzx (s : Vec4A) : Vec4A := ⟨i32x4_shuffle 2 3 6 4 s.v s.v⟩

def Vec4A.zwzy (s : Vec4A) : Vec4A := ⟨i32x4_shuffle 2 3 6 5 s.v s.v⟩

def Vec4A.zwzz (s : Vec4A) : Vec4A := ⟨i32x4_shuffle 2 3 6 6 s.v s.v⟩

def Vec4A.zwzw (s : Vec4A) : Vec4A := ⟨i32x4_shuffle 2 3 6 7 s.v s.v⟩

def Vec4A.zwwx (s : Vec4A) : Vec4A := ⟨i32x4_shuffle 2 3 7 4 s.v s.v⟩

def Vec4A.zwwy (s : Vec4A) : Vec4A := ⟨i32x4_shuffle 2 3 7 5 s.v s.v⟩

def Vec4A.zwwz (s : Vec4A) : Vec4A := ⟨i32x4_shuffle 2 3 7 6 s.v s.v⟩

def Vec4A.zwww (s : Vec4A) : Vec4A := ⟨i32x4_shuffle 2 3 7 7 s.v s.v⟩

def Vec4A.wxxx (s : Vec4A) : Vec4A := ⟨i32x4_shuffle 3 0 4 4 s.v s.v⟩

def Vec4A.wxxy (s : Vec4A) : Vec4A := ⟨i32x4_shuffle 3 0 4 5 s.v s.v⟩

def Vec4A.wxxz (s : Vec4A) : Vec4A := ⟨i32x4_shuffle 3 0 4 6 s.v s.v⟩

def Vec4A.wxxw (s : Vec4A) : Vec4A := ⟨i32x4_shuffle 3 0 4 7 s.v s.v⟩

def Vec4A.wxyx (s : Vec4A) : Vec4A := ⟨i32x4_shuffle 3 0 5 4 s.v s.v⟩

def Vec4A.wxyy (s : Vec4A) : Vec4A := ⟨i32x4_shuffle 3 0 5 5 s.v s.v⟩

def Vec4A.wxyz (s : Vec4A) : Vec4A := ⟨i32x4_shuffle 3 0 5 6 s.v s.v⟩

def Vec4A.wxyw (s : Vec4A) : Vec4A := ⟨i32x4_shuffle 3 0 5 7 s.v s.v⟩

def Vec4A.wxzx (s : Vec4A) : Vec4A := ⟨i32x4_shuffle 3 0 6 4 s.v s.v⟩

def Vec4A.wxzy (s : Vec4A) : Vec4A := ⟨i32x4_shuffle 3 0 6 5 s.v s.v⟩

def Vec4A.wxzz (s : Vec4A) : Vec4A := ⟨i32x4_shuffle 3 0 6 6 s.v s.v⟩

def Vec4A.wxzw (s : Vec4A) : Vec4A := ⟨i32x4_shuffle 3 0 6 7 s.v s.v⟩

def Vec4A.wxwx (s : Vec4A) : Vec4A := ⟨i32x4_shuffle 3 0 7 4 s.v s.v⟩

def Vec4A.wxwy (s : Vec4A) : Vec4A := ⟨i32x4_shuffle 3 0 7 5 s.v s.v⟩

def Vec4A.wxwz (s : Vec4A) : Vec4A := ⟨i32x4_shuffle 3 0 7 6 s.v s.v⟩

def Vec4A.wxww (s : Vec4A) : Vec4A := ⟨i32x4_shuffle 3 0 7 7 s.v s.v⟩

def Vec4A.wyxx (s : Vec4A) : Vec4A := ⟨i32x4_shuffle 3 1 4 4 s.v s.v⟩

def Vec4A.wyxy (s : Vec4A) : Vec4A := ⟨i32x4_shuffle 3 1 4 5 s.v s.v⟩

def Vec4A.wyxz (s : Vec4A) : Vec4A := ⟨i32x4_shuffle 3 1 4 6 s.v s.v⟩

def Vec4A.wyxw (s : Vec4A) : Vec4A := ⟨i32x4_shuffle 3 1 4 7 s.v s.v⟩

def Vec4A.wyyx (s : Vec4A) : Vec4A := ⟨i32x4_shuffle 3 1 5 4 s.v s.v⟩

def Vec4A.wyyy (s : Vec4A) : Vec4A := ⟨i32x4_shuffle 3 1 5 5 s.v s.v⟩

def Vec4A.wyyz (s : Vec4A) : Vec4A := ⟨i32x4_shuffle 3 1 5 6 s.v s.v⟩

def Vec4A.wyyw (s : Vec4A) : Vec4A := ⟨i32x4_shuffle 3 1 5 7 s.v s.v⟩

def Vec4A.wyzx (s : Vec4A) : Vec4A := ⟨i32x4_shuffle 3 1 6 4 s.v s.v⟩

def Vec4A.wyzy (s : Vec4A) : Vec4A := ⟨i32x4_shuffle 3 1 6 5 s.v s.v⟩

def Vec4A.wyzz (s : Vec4A) : Vec4A := ⟨i32x4_shuffle 3 1 6 6 s.v s.v⟩

def Vec4A.wyzw (s : Vec4A) : Vec4A := ⟨i32x4_shuffle 3 1 6 7 s.v s.v⟩

def Vec4A.wywx (s : Vec4A) : Vec4A := ⟨i32x4_shuffle 3 1 7 4 s.v s.v⟩

def Vec4A.wywy (s : Vec4A) : Vec4A := ⟨i32x4_shuffle 3 1 7 5 s.v s.v⟩

def Vec4A.wywz (s : Vec4A) : Vec4A := ⟨i32x4_shuffle 3 1 7 6 s.v s.v⟩

def Vec4A.wyww (s : Vec4A) : Vec4A := ⟨i32x4_shuffle 3 1 7 7 s.v s.v⟩

def Vec4A.wzxx (s : Vec4A) : Vec4A := ⟨i32x4_shuffle 3 2 4 4 s.v s.v⟩

def Vec4A.wzxy (s : Vec4A) : Vec4A := ⟨i32x4_shuffle 3 2 4 5 s.v s.v⟩

def Vec4A.wzxz (s : Vec4A) : Vec4A := ⟨i32x4_shuffle 3 2 4 6 s.v s.v⟩

def Vec4A.wzxw (s : Vec4A) : Vec4A := ⟨i32x4_shuffle 3 2 4 7 s.v s.v⟩

def Vec4A.wzyx (s : Vec4A) : Vec4A := ⟨i32x4_shuffle 3 2 5 4 s.v s.v⟩

def Vec4A.wzyy (s : Vec4A) : Vec4A := ⟨i32x4_shuffle 3 2 5 5 s.v s.v⟩

def Vec4A.wzyz (s : Vec4A) : Vec4A := ⟨i32x4_shuffle 3 2 5 6 s.v s.v⟩

def Vec4A.wzyw (s : Vec4A) : Vec4A := ⟨i32x4_shuffle 3 2 5 7 s.v s.v⟩

def Vec4A.wzzx (s : Vec4A) : Vec4A := ⟨i32x4_shuffle 3 2 6 4 s.v s.v⟩

def Vec4A.wzzy (s : Vec4A) : Vec4A := ⟨i32x4_shuffle 3 2 6 5 s.v s.v⟩

def Vec4A.wzzz (s : Vec4A) : Vec4A := ⟨i32x4_shuffle 3 2 6 6 s.v s.v⟩

def Vec4A.wzzw (s : Vec4A) : Vec4A := ⟨i32x4_shuffle 3 2 6 7 s.v s.v⟩

def Vec4A.wzwx (s : Vec4A) : Vec4A := ⟨i32x4_shuffle 3 2 7 4 s.v s.v⟩

def Vec4A.wzwy (s : Vec4A) : Vec4A := ⟨i32x4_shuffle 3 2 7 5 s.v s.v⟩

def Vec4A.wzwz (s : Vec4A) : Vec4A := ⟨i32x4_shuffle 3 2 7 6 s.v s.v⟩

def Vec4A.wzww (s : Vec4A) : Vec4A := ⟨i32x4_shuffle 3 2 7 7 s.v s.v⟩

def Vec4A.wwxx (s : Vec4A) : Vec4A := ⟨i32x4_shuffle 3 3 4 4 s.v s.v⟩

def Vec4A.wwxy (s : Vec4A) : Vec4A := ⟨i32x4_shuffle 3 3 4 5 s.v s.v⟩

def Vec4A.wwxz (s : Vec4A) : Vec4A := ⟨i32x4_shuffle 3 3 4 6 s.v s.v⟩

def Vec4A.wwxw (s : Vec4A) : Vec4A := ⟨i32x4_shuffle 3 3 4 7 s.v s.v⟩

def Vec4A.wwyx (s : Vec4A) : Vec4A := ⟨i32x4_shuffle 3 3 5 4 s.v s.v⟩

def Vec4A.wwyy (s : Vec4A) : Vec4A := ⟨i32x4_shuffle 3 3 5 5 s.v s.v⟩

def Vec4A.wwyz (s : Vec4A) : Vec4A := ⟨i32x4_shuffle 3 3 5 6 s.v s.v⟩

def Vec4A.wwyw (s : Vec4A) : Vec4A := ⟨i32x4_shuffle 3 3 5 7 s.v s.v⟩

def Vec4A.wwzx (s : Vec4A) : Vec4A := ⟨i32x4_shuffle 3 3 6 4 s.v s.v⟩

def Vec4A.wwzy (s : Vec4A) : Vec4A := ⟨i32x4_shuffle 3 3 6 5 s.v s.v⟩

def Vec4A.wwzz (s : Vec4A) : Vec4A := ⟨i32x4_shuffle 3 3 6 6 s.v s.v⟩

def Vec4A.wwzw (s : Vec4A) : Vec4A := ⟨i32x4_shuffle 3 3 6 7 s.v s.v⟩

def Vec4A.wwwx (s : Vec4A) : Vec4A := ⟨i32x4_shuffle 3 3 7 4 s.v s.v⟩

def Vec4A.wwwy (s : Vec4A) : Vec4A := ⟨i32x4_shuffle 3 3 7 5 s.v s.v⟩

def Vec4A.wwwz (s : Vec4A) : Vec4A := ⟨i32x4_shuffle 3 3 7 6 s.v s.v⟩

def Vec4A.wwww (s : Vec4A) : Vec4A := ⟨i32x4_shuffle 3 3 7 7 s.v s.v⟩

set_option maxRecDepth 8000

/-- C4: every swizzle method on the wasm32 `Vec4A` backend is pure lane
selection: output component `i` is (bit-for-bit) input component `perm[i]`
as named by the method, for all 16 two-component, 64 three-component and
256 four-component selections; repeats copy the source lane exactly. -/
theorem swizzle_pure_selection (s : Vec4A) :
    (Vec4A.xx s) = Vec2.mk (s.x) (s.x) ∧
    (Vec4A.xy s) = Vec2.mk (s.x) (s.y) ∧
    (Vec4A.xz s) = Vec2.mk (s.x) (s.z) ∧
    (Vec4A.xw s) = Vec2.mk (s.x) (s.w) ∧
    (Vec4A.yx s) = Vec2.mk (s.y) (s.x) ∧
    (Vec4A.yy s) = Vec2.mk (s.y) (s.y) ∧
    (Vec4A.yz s) = Vec2.mk (s.y) (s.z) ∧
    (Vec4A.yw s) = Vec2.mk (s.y) (s.w) ∧
    (Vec4A.zx s) = Vec2.mk (s.z) (s.x) ∧
    (Vec4A.zy s) = Vec2.mk (s.z) (s.y) ∧
    (Vec4A.zz s) = Vec2.mk (s.z) (s.z) ∧
    (Vec4A.zw s) = Vec2.mk (s.z) (s.w) ∧
    (Vec4A.wx s) = Vec2.mk (s.w) (s.x) ∧
    (Vec4A.wy s) = Vec2.mk (s.w) (s.y) ∧
    (Vec4A.wz s) = Vec2.mk (s.w) (s.z) ∧
    (Vec4A.ww s) = Vec2.mk (s.w) (s.w) ∧
    (Vec4A.xxx s).logical = (s.x, s.x, s.x) ∧
    (Vec4A.xxy s).logical = (s.x, s.x, s.y) ∧
    (Vec4A.xxz s).logical = (s.x, s.x, s.z) ∧
    (Vec4A.xxw s).logical = (s.x, s.x, s.w) ∧
    (Vec4A.xyx s).logical = (s.x, s.y, s.x) ∧
    (Vec4A.xyy s).logical = (s.x, s.y, s.y) ∧
    (Vec4A.xyz s).logical = (s.x, s.y, s.z) ∧
    (Vec4A.xyw s).logical = (s.x, s.y, s.w) ∧
    (Vec4A.xzx s).logical = (s.x, s.z, s.x) ∧
    (Vec4A.xzy s).logical = (s.x, s.z, s.y) ∧
    (Vec4A.xzz s).logical = (s.x, s.z, s.z) ∧
    (Vec4A.xzw s).logical = (s.x, s.z, s.w) ∧
    (Vec4A.xwx s).logical = (s.x, s.w, s.x) ∧
    (Vec4A.xwy s).logical = (s.x, s.w, s.y) ∧
    (Vec4A.xwz s).logical = (s.x, s.w, s.z) ∧
    (Vec4A.xww s).logical = (s.x, s.w, s.w) ∧
    (Vec4A.yxx s).logical = (s.y, s.x, s.x) ∧
    (Vec4A.yxy s).logical = (s.y, s.x, s.y) ∧
    (Vec4A.yxz s).logical = (s.y, s.x, s.z) ∧
    (Vec4A.yxw s).logical = (s.y, s.x, s.w) ∧
    (Vec4A.yyx s).logical = (s.y, s.y, s.x) ∧
    (Vec4A.yyy s).logical = (s.y, s.y, s.y) ∧
    (Vec4A.yyz s).logical = (s.y, s.y, s.z) ∧
    (Vec4A.yyw s).logical = (s.y, s.y, s.w) ∧
    (Vec4A.yzx s).logical = (s.y, s.z, s.x) ∧
    (Vec4A.yzy s).logical = (s.y, s.z, s.y) ∧
    (Vec4A.yzz s).logical = (s.y, s.z, s.z) ∧
    (Vec4A.yzw s).logical = (s.y, s.z, s.w) ∧
    (Vec4A.ywx s).logical = (s.y, s.w, s.x) ∧
    (Vec4A.ywy s).logical = (s.y, s.w, s.y) ∧
    (Vec4A.ywz s).logical = (s.y, s.w, s.z) ∧
    (Vec4A.yww s).logical = (s.y, s.w, s.w) ∧
    (Vec4A.zxx s).logical = (s.z, s.x, s.x) ∧
    (Vec4A.zxy s).logical = (s.z, s.x, s.y) ∧
    (Vec4A.zxz s).logical = (s.z, s.x, s.z) ∧
    (Vec4A.zxw s).logical = (s.z, s.x, s.w) ∧
    (Vec4A.zyx s).logical = (s.z, s.y, s.x) ∧
    (Vec4A.zyy s).logical = (s.z, s.y, s.y) ∧
    (Vec4A.zyz s).logical = (s.z, s.y, s.z) ∧
    (Vec4A.zyw s).logical = (s.z, s.y, s.w) ∧
    (Vec4A.zzx s).logical = (s.z, s.z, s.x) ∧
    (Vec4A.zzy s).logical = (s.z, s.z, s.y) ∧
    (Vec4A.zzz s).logical = (s.z, s.z, s.z) ∧
    (Vec4A.zzw s).logical = (s.z, s.z, s.w) ∧
    (Vec4A.zwx s).logical = (s.z, s.w, s.x) ∧
    (Vec4A.zwy s).logical = (s.z, s.w, s.y) ∧
    (Vec4A.zwz s).logical = (s.z, s.w, s.z) ∧
    (Vec4A.zww s).logical = (s.z, s.w, s.w) ∧
    (Vec4A.wxx s).logical = (s.w, s.x, s.x) ∧
    (Vec4A.wxy s).logical = (s.w, s.x, s.y) ∧
    (Vec4A.wxz s).logical = (s.w, s.x, s.z) ∧
    (Vec4A.wxw s).logical = (s.w, s.x, s.w) ∧
    (Vec4A.wyx s).logical = (s.w, s.y, s.x) ∧
    (Vec4A.wyy s).logical = (s.w, s.y, s.y) ∧
    (Vec4A.wyz s).logical = (s.w, s.y, s.z) ∧
    (Vec4A.wyw s).logical = (s.w, s.y, s.w) ∧
    (Vec4A.wzx s).logical = (s.w, s.z, s.x) ∧
    (Vec4A.wzy s).logical = (s.w, s.z, s.y) ∧
    (Vec4A.wzz s).logical = (s.w, s.z, s.z) ∧
    (Vec4A.wzw s).logical = (s.w, s.z, s.w) ∧
    (Vec4A.wwx s).logical = (s.w, s.w, s.x) ∧
    (Vec4A.wwy s).logical = (s.w, s.w, s.y) ∧
    (Vec4A.wwz s).logical = (s.w, s.w, s.z) ∧
    (Vec4A.www s).logical = (s.w, s.w, s.w) ∧
    (Vec4A.xxxx s).logical = (s.x, s.x, s.x, s.x) ∧
    (Vec4A.xxxy s).logical = (s.x, s.x, s.x, s.y) ∧
    (Vec4A.xxxz s).logical = (s.x, s.x, s.x, s.z) ∧
    (Vec4A.xxxw s).logical = (s.x, s.x, s.x, s.w) ∧
    (Vec4A.xxyx s).logical = (s.x, s.x, s.y, s.x) ∧
    (Vec4A.xxyy s).logical = (s.x, s.x, s.y, s.y) ∧
    (Vec4A.xxyz s).logical = (s.x, s.x, s.y, s.z) ∧
    (Vec4A.xxyw s).logical = (s.x, s.x, s.y, s.w) ∧
    (Vec4A.xxzx s).logical = (s.x, s.x, s.z, s.x) ∧
    (Vec4A.xxzy s).logical = (s.x, s.x, s.z, s.y) ∧
    (Vec4A.xxzz s).logical = (s.x, s.x, s.z, s.z) ∧
    (Vec4A.xxzw s).logical = (s.x, s.x, s.z, s.w) ∧
    (Vec4A.xxwx s).logical = (s.x, s.x, s.w, s.x) ∧
    (Vec4A.xxwy s).logical = (s.x, s.x, s.w, s.y) ∧
    (Vec4A.xxwz s).logical = (s.x, s.x, s.w, s.z) ∧
    (Vec4A.xxww s).logical = (s.x, s.x, s.w, s.w) ∧
    (Vec4A.xyxx s).logical = (s.x, s.y, s.x, s.x) ∧
    (Vec4A.xyxy s).logical = (s.x, s.y, s.x, s.y) ∧
    (Vec4A.xyxz s).logical = (s.x, s.y, s.x, s.z) ∧
    (Vec4A.xyxw s).logical = (s.x, s.y, s.x, s.w) ∧
    (Vec4A.xyyx s).logical = (s.x, s.y, s.y, s.x) ∧
    (Vec4A.xyyy s).logical = (s.x, s.y, s.y, s.y) ∧
    (Vec4A.xyyz s).logical = (s.x, s.y, s.y, s.z) ∧
    (Vec4A.xyyw s).logical = (s.x, s.y, s.y, s.w) ∧
    (Vec4A.xyzx s).logical = (s.x, s.y, s.z, s.x) ∧
    (Vec4A.xyzy s).logical = (s.x, s.y, s.z, s.y) ∧
    (Vec4A.xyzz s).logical = (s.x, s.y, s.z, s.z) ∧
    (Vec4A.xyzw s).logical = (s.x, s.y, s.z, s.w) ∧
    (Vec4A.xywx s).logical = (s.x, s.y, s.w, s.x) ∧
    (Vec4A.xywy s).logical = (s.x, s.y, s.w, s.y) ∧
    (Vec4A.xywz s).logical = (s.x, s.y, s.w, s.z) ∧
    (Vec4A.xyww s).logical = (s.x, s.y, s.w, s.w) ∧
    (Vec4A.xzxx s).logical = (s.x, s.z, s.x, s.x) ∧
    (Vec4A.xzxy s).logical = (s.x, s.z, s.x, s.y) ∧
    (Vec4A.xzxz s).logical = (s.x, s.z, s.x, s.z) ∧
    (Vec4A.xzxw s).logical = (s.x, s.z, s.x, s.w) ∧
    (Vec4A.xzyx s).logical = (s.x, s.z, s.y, s.x) ∧
    (Vec4A.xzyy s).logical = (s.x, s.z, s.y, s.y) ∧
    (Vec4A.xzyz s).logical = (s.x, s.z, s.y, s.z) ∧
    (Vec4A.xzyw s).logical = (s.x, s.z, s.y, s.w) ∧
    (Vec4A.xzzx s).logical = (s.x, s.z, s.z, s.x) ∧
    (Vec4A.xzzy s).logical = (s.x, s.z, s.z, s.y) ∧
    (Vec4A.xzzz s).logical = (s.x, s.z, s.z, s.z) ∧
    (Vec4A.xzzw s).logical = (s.x, s.z, s.z, s.w) ∧
    (Vec4A.xzwx s).logical = (s.x, s.z, s.w, s.x) ∧
    (Vec4A.xzwy s).logical = (s.x, s.z, s.w, s.y) ∧
    (Vec4A.xzwz s).logical = (s.x, s.z, s.w, s.z) ∧
    (Vec4A.xzww s).logical = (s.x, s.z, s.w, s.w) ∧
    (Vec4A.xwxx s).logical = (s.x, s.w, s.x, s.x) ∧
    (Vec4A.xwxy s).logical = (s.x, s.w, s.x, s.y) ∧
    (Vec4A.xwxz s).logical = (s.x, s.w, s.x, s.z) ∧
    (Vec4A.xwxw s).logical = (s.x, s.w, s.x, s.w) ∧
    (Vec4A.xwyx s).logical = (s.x, s.w, s.y, s.x) ∧
    (Vec4A.xwyy s).logical = (s.x, s.w, s.y, s.y) ∧
    (Vec4A.xwyz s).logical = (s.x, s.w, s.y, s.z) ∧
    (Vec4A.xwyw s).logical = (s.x, s.w, s.y, s.w) ∧
    (Vec4A.xwzx s).logical = (s.x, s.w, s.z, s.x) ∧
    (Vec4A.xwzy s).logical = (s.x, s.w, s.z, s.y) ∧
    (Vec4A.xwzz s).logical = (s.x, s.w, s.z, s.z) ∧
    (Vec4A.xwzw s).logical = (s.x, s.w, s.z, s.w) ∧
    (Vec4A.xwwx s).logical = (s.x, s.w, s.w, s.x) ∧
    (Vec4A.xwwy s).logical = (s.x, s.w, s.w, s.y) ∧
    (Vec4A.xwwz s).logical = (s.x, s.w, s.w, s.z) ∧
    (Vec4A.xwww s).logical = (s.x, s.w, s.w, s.w) ∧
    (Vec4A.yxxx s).logical = (s.y, s.x, s.x, s.x) ∧
    (Vec4A.yxxy s).logical = (s.y, s.x, s.x, s.y) ∧
    (Vec4A.yxxz s).logical = (s.y, s.x, s.x, s.z) ∧
    (Vec4A.yxxw s).logical = (s.y, s.x, s.x, s.w) ∧
    (Vec4A.yxyx s).logical = (s.y, s.x, s.y, s.x) ∧
    (Vec4A.yxyy s).logical = (s.y, s.x, s.y, s.y) ∧
    (Vec4A.yxyz s).logical = (s.y, s.x, s.y, s.z) ∧
    (Vec4A.yxyw s).logical = (s.y, s.x, s.y, s.w) ∧
    (Vec4A.yxzx s).logical = (s.y, s.x, s.z, s.x) ∧
    (Vec4A.yxzy s).logical = (s.y, s.x, s.z, s.y) ∧
    (Vec4A.yxzz s).logical = (s.y, s.x, s.z, s.z) ∧
    (Vec4A.yxzw s).logical = (s.y, s.x, s.z, s.w) ∧
    (Vec4A.yxwx s).logical = (s.y, s.x, s.w, s.x) ∧
    (Vec4A.yxwy s).logical = (s.y, s.x, s.w, s.y) ∧
    (Vec4A.yxwz s).logical = (s.y, s.x, s.w, s.z) ∧
    (Vec4A.yxww s).logical = (s.y, s.x, s.w, s.w) ∧
    (Vec4A.yyxx s).logical = (s.y, s.y, s.x, s.x) ∧
    (Vec4A.yyxy s).logical = (s.y, s.y, s.x, s.y) ∧
    (Vec4A.yyxz s).logical = (s.y, s.y, s.x, s.z) ∧
    (Vec4A.yyxw s).logical = (s.y, s.y, s.x, s.w) ∧
    (Vec4A.yyyx s).logical = (s.y, s.y, s.y, s.x) ∧
    (Vec4A.yyyy s).logical = (s.y, s.y, s.y, s.y) ∧
    (Vec4A.yyyz s).logical = (s.y, s.y, s.y, s.z) ∧
    (Vec4A.yyyw s).logical = (s.y, s.y, s.y, s.w) ∧
    (Vec4A.yyzx s).logical = (s.y, s.y, s.z, s.x) ∧
    (Vec4A.yyzy s).logical = (s.y, s.y, s.z, s.y) ∧
    (Vec4A.yyzz s).logical = (s.y, s.y, s.z, s.z) ∧
    (Vec4A.yyzw s).logical = (s.y, s.y, s.z, s.w) ∧
    (Vec4A.yywx s).logical = (s.y, s.y, s.w, s.x) ∧
    (Vec4A.yywy s).logical = (s.y, s.y, s.w, s.y) ∧
    (Vec4A.yywz s).logical = (s.y, s.y, s.w, s.z) ∧
    (Vec4A.yyww s).logical = (s.y, s.y, s.w, s.w) ∧
    (Vec4A.yzxx s).logical = (s.y, s.z, s.x, s.x) ∧
    (Vec4A.yzxy s).logical = (s.y, s.z, s.x, s.y) ∧
    (Vec4A.yzxz s).logical = (s.y, s.z, s.x, s.z) ∧
    (Vec4A.yzxw s).logical = (s.y, s.z, s.x, s.w) ∧
    (Vec4A.yzyx s).logical = (s.y, s.z, s.y, s.x) ∧
    (Vec4A.yzyy s).logical = (s.y, s.z, s.y, s.y) ∧
    (Vec4A.yzyz s).logical = (s.y, s.z, s.y, s.z) ∧
    (Vec4A.yzyw s).logical = (s.y, s.z, s.y, s.w) ∧
    (Vec4A.yzzx s).logical = (s.y, s.z, s.z, s.x) ∧
    (Vec4A.yzzy s).logical = (s.y, s.z, s.z, s.y) ∧
    (Vec4A.yzzz s).logical = (s.y, s.z, s.z, s.z) ∧
    (Vec4A.yzzw s).logical = (s.y, s.z, s.z, s.w) ∧
    (Vec4A.yzwx s).logical = (s.y, s.z, s.w, s.x) ∧
    (Vec4A.yzwy s).logical = (s.y, s.z, s.w, s.y) ∧
    (Vec4A.yzwz s).logical = (s.y, s.z, s.w, s.z) ∧
    (Vec4A.yzww s).logical = (s.y, s.z, s.w, s.w) ∧
    (Vec4A.ywxx s).logical = (s.y, s.w, s.x, s.x) ∧
    (Vec4A.ywxy s).logical = (s.y, s.w, s.x, s.y) ∧
    (Vec4A.ywxz s).logical = (s.y, s.w, s.x, s.z) ∧
    (Vec4A.ywxw s).logical = (s.y, s.w, s.x, s.w) ∧
    (Vec4A.ywyx s).logical = (s.y, s.w, s.y, s.x) ∧
    (Vec4A.ywyy s).logical = (s.y, s.w, s.y, s.y) ∧
    (Vec4A.ywyz s).logical = (s.y, s.w, s.y, s.z) ∧
    (Vec4A.ywyw s).logical = (s.y, s.w, s.y, s.w) ∧
    (Vec4A.ywzx s).logical = (s.y, s.w, s.z, s.x) ∧
    (Vec4A.ywzy s).logical = (s.y, s.w, s.z, s.y) ∧
    (Vec4A.ywzz s).logical = (s.y, s.w, s.z, s.z) ∧
    (Vec4A.ywzw s).logical = (s.y, s.w, s.z, s.w) ∧
    (Vec4A.ywwx s).logical = (s.y, s.w, s.w, s.x) ∧
    (Vec4A.ywwy s).logical = (s.y, s.w, s.w, s.y) ∧
    (Vec4A.ywwz s).logical = (s.y, s.w, s.w, s.z) ∧
    (Vec4A.ywww s).logical = (s.y, s.w, s.w, s.w) ∧
    (Vec4A.zxxx s).logical = (s.z, s.x, s.x, s.x) ∧
    (Vec4A.zxxy s).logical = (s.z, s.x, s.x, s.y) ∧
    (Vec4A.zxxz s).logical = (s.z, s.x, s.x, s.z) ∧
    (Vec4A.zxxw s).logical = (s.z, s.x, s.x, s.w) ∧
    (Vec4A.zxyx s).logical = (s.z, s.x, s.y, s.x) ∧
    (Vec4A.zxyy s).logical = (s.z, s.x, s.y, s.y) ∧
    (Vec4A.zxyz s).logical = (s.z, s.x, s.y, s.z) ∧
    (Vec4A.zxyw s).logical = (s.z, s.x, s.y, s.w) ∧
    (Vec4A.zxzx s).logical = (s.z, s.x, s.z, s.x) ∧
    (Vec4A.zxzy s).logical = (s.z, s.x, s.z, s.y) ∧
    (Vec4A.zxzz s).logical = (s.z, s.x, s.z, s.z) ∧
    (Vec4A.zxzw s).logical = (s.z, s.x, s.z, s.w) ∧
    (Vec4A.zxwx s).logical = (s.z, s.x, s.w, s.x) ∧
    (Vec4A.zxwy s).logical = (s.z, s.x, s.w, s.y) ∧
    (Vec4A.zxwz s).logical = (s.z, s.x, s.w, s.z) ∧
    (Vec4A.zxww s).logical = (s.z, s.x, s.w, s.w) ∧
    (Vec4A.zyxx s).logical = (s.z, s.y, s.x, s.x) ∧
    (Vec4A.zyxy s).logical = (s.z, s.y, s.x, s.y) ∧
    (Vec4A.zyxz s).logical = (s.z, s.y, s.x, s.z) ∧
    (Vec4A.zyxw s).logical = (s.z, s.y, s.x, s.w) ∧
    (Vec4A.zyyx s).logical = (s.z, s.y, s.y, s.x) ∧
    (Vec4A.zyyy s).logical = (s.z, s.y, s.y, s.y) ∧
    (Vec4A.zyyz s).logical = (s.z, s.y, s.y, s.z) ∧
    (Vec4A.zyyw s).logical = (s.z, s.y, s.y, s.w) ∧
    (Vec4A.zyzx s).logical = (s.z, s.y, s.z, s.x) ∧
    (Vec4A.zyzy s).logical = (s.z, s.y, s.z, s.y) ∧
    (Vec4A.zyzz s).logical = (s.z, s.y, s.z, s.z) ∧
    (Vec4A.zyzw s).logical = (s.z, s.y, s.z, s.w) ∧
    (Vec4A.zywx s).logical = (s.z, s.y, s.w, s.x) ∧
    (Vec4A.zywy s).logical = (s.z, s.y, s.w, s.y) ∧
    (Vec4A.zywz s).logical = (s.z, s.y, s.w, s.z) ∧
    (Vec4A.zyww s).logical = (s.z, s.y, s.w, s.w) ∧
    (Vec4A.zzxx s).logical = (s.z, s.z, s.x, s.x) ∧
    (Vec4A.zzxy s).logical = (s.z, s.z, s.x, s.y) ∧
    (Vec4A.zzxz s).logical = (s.z, s.z, s.x, s.z) ∧
    (Vec4A.zzxw s).logical = (s.z, s.z, s.x, s.w) ∧
    (Vec4A.zzyx s).logical = (s.z, s.z, s.y, s.x) ∧
    (Vec4A.zzyy s).logical = (s.z, s.z, s.y, s.y) ∧
    (Vec4A.zzyz s).logical = (s.z, s.z, s.y, s.z) ∧
    (Vec4A.zzyw s).logical = (s.z, s.z, s.y, s.w) ∧
    (Vec4A.zzzx s).logical = (s.z, s.z, s.z, s.x) ∧
    (Vec4A.zzzy s).logical = (s.z, s.z, s.z, s.y) ∧
    (Vec4A.zzzz s).logical = (s.z, s.z, s.z, s.z) ∧
    (Vec4A.zzzw s).logical = (s.z, s.z, s.z, s.w) ∧
    (Vec4A.zzwx s).logical = (s.z, s.z, s.w, s.x) ∧
    (Vec4A.zzwy s).logical = (s.z, s.z, s.w, s.y) ∧
    (Vec4A.zzwz s).logical = (s.z, s.z, s.w, s.z) ∧
    (Vec4A.zzww s).logical = (s.z, s.z, s.w, s.w) ∧
    (Vec4A.zwxx s).logical = (s.z, s.w, s.x, s.x) ∧
    (Vec4A.zwxy s).logical = (s.z, s.w, s.x, s.y) ∧
    (Vec4A.zwxz s).logical = (s.z, s.w, s.x, s.z) ∧
    (Vec4A.zwxw s).logical = (s.z, s.w, s.x, s.w) ∧
    (Vec4A.zwyx s).logical = (s.z, s.w, s.y, s.x) ∧
    (Vec4A.zwyy s).logical = (s.z, s.w, s.y, s.y) ∧
    (Vec4A.zwyz s).logical = (s.z, s.w, s.y, s.z) ∧
    (Vec4A.zwyw s).logical = (s.z, s.w, s.y, s.w) ∧
    (Vec4A.zwzx s).logical = (s.z, s.w, s.z, s.x) ∧
    (Vec4A.zwzy s).logical = (s.z, s.w, s.z, s.y) ∧
    (Vec4A.zwzz s).logical = (s.z, s.w, s.z, s.z) ∧
    (Vec4A.zwzw s).logical = (s.z, s.w, s.z, s.w) ∧
    (Vec4A.zwwx s).logical = (s.z, s.w, s.w, s.x) ∧
    (Vec4A.zwwy s).logical = (s.z, s.w, s.w, s.y) ∧
    (Vec4A.zwwz s).logical = (s.z, s.w, s.w, s.z) ∧
    (Vec4A.zwww s).logical = (s.z, s.w, s.w, s.w) ∧
    (Vec4A.wxxx s).logical = (s.w, s.x, s.x, s.x) ∧
    (Vec4A.wxxy s).logical = (s.w, s.x, s.x, s.y) ∧
    (Vec4A.wxxz s).logical = (s.w, s.x, s.x, s.z) ∧
    (Vec4A.wxxw s).logical = (s.w, s.x, s.x, s.w) ∧
    (Vec4A.wxyx s).logical = (s.w, s.x, s.y, s.x) ∧
    (Vec4A.wxyy s).logical = (s.w, s.x, s.y, s.y) ∧
    (Vec4A.wxyz s).logical = (s.w, s.x, s.y, s.z) ∧
    (Vec4A.wxyw s).logical = (s.w, s.x, s.y, s.w) ∧
    (Vec4A.wxzx s).logical = (s.w, s.x, s.z, s.x) ∧
    (Vec4A.wxzy s).logical = (s.w, s.x, s.z, s.y) ∧
    (Vec4A.wxzz s).logical = (s.w, s.x, s.z, s.z) ∧
    (Vec4A.wxzw s).logical = (s.w, s.x, s.z, s.w) ∧
    (Vec4A.wxwx s).logical = (s.w, s.x, s.w, s.x) ∧
    (Vec4A.wxwy s).logical = (s.w, s.x, s.w, s.y) ∧
    (Vec4A.wxwz s).logical = (s.w, s.x, s.w, s.z) ∧
    (Vec4A.wxww s).logical = (s.w, s.x, s.w, s.w) ∧
    (Vec4A.wyxx s).logical = (s.w, s.y, s.x, s.x) ∧
    (Vec4A.wyxy s).logical = (s.w, s.y, s.x, s.y) ∧
    (Vec4A.wyxz s).logical = (s.w, s.y, s.x, s.z) ∧
    (Vec4A.wyxw s).logical = (s.w, s.y, s.x, s.w) ∧
    (Vec4A.wyyx s).logical = (s.w, s.y, s.y, s.x) ∧
    (Vec4A.wyyy s).logical = (s.w, s.y, s.y, s.y) ∧
    (Vec4A.wyyz s).logical = (s.w, s.y, s.y, s.z) ∧
    (Vec4A.wyyw s).logical = (s.w, s.y, s.y, s.w) ∧
    (Vec4A.wyzx s).logical = (s.w, s.y, s.z, s.x) ∧
    (Vec4A.wyzy s).logical = (s.w, s.y, s.z, s.y) ∧
    (Vec4A.wyzz s).logical = (s.w, s.y, s.z, s.z) ∧
    (Vec4A.wyzw s).logical = (s.w, s.y, s.z, s.w) ∧
    (Vec4A.wywx s).logical = (s.w, s.y, s.w, s.x) ∧
    (Vec4A.wywy s).logical = (s.w, s.y, s.w, s.y) ∧
    (Vec4A.wywz s).logical = (s.w, s.y, s.w, s.z) ∧
    (Vec4A.wyww s).logical = (s.w, s.y, s.w, s.w) ∧
    (Vec4A.wzxx s).logical = (s.w, s.z, s.x, s.x) ∧
    (Vec4A.wzxy s).logical = (s.w, s.z, s.x, s.y) ∧
    (Vec4A.wzxz s).logical = (s.w, s.z, s.x, s.z) ∧
    (Vec4A.wzxw s).logical = (s.w, s.z, s.x, s.w) ∧
    (Vec4A.wzyx s).logical = (s.w, s.z, s.y, s.x) ∧
    (Vec4A.wzyy s).logical = (s.w, s.z, s.y, s.y) ∧
    (Vec4A.wzyz s).logical = (s.w, s.z, s.y, s.z) ∧
    (Vec4A.wzyw s).logical = (s.w, s.z, s.y, s.w) ∧
    (Vec4A.wzzx s).logical = (s.w, s.z, s.z, s.x) ∧
    (Vec4A.wzzy s).logical = (s.w, s.z, s.z, s.y) ∧
    (Vec4A.wzzz s).logical = (s.w, s.z, s.z, s.z) ∧
    (Vec4A.wzzw s).logical = (s.w, s.z, s.z, s.w) ∧
    (Vec4A.wzwx s).logical = (s.w, s.z, s.w, s.x) ∧
    (Vec4A.wzwy s).logical = (s.w, s.z, s.w, s.y) ∧
    (Vec4A.wzwz s).logical = (s.w, s.z, s.w, s.z) ∧
    (Vec4A.wzww s).logical = (s.w, s.z, s.w, s.w) ∧
    (Vec4A.wwxx s).logical = (s.w, s.w, s.x, s.x) ∧
    (Vec4A.wwxy s).logical = (s.w, s.w, s.x, s.y) ∧
    (Vec4A.wwxz s).logical = (s.w, s.w, s.x, s.z) ∧
    (Vec4A.wwxw s).logical = (s.w, s.w, s.x, s.w) ∧
    (Vec4A.wwyx s).logical = (s.w, s.w, s.y, s.x) ∧
    (Vec4A.wwyy s).logical = (s.w, s.w, s.y, s.y) ∧
    (Vec4A.wwyz s).logical = (s.w, s.w, s.y, s.z) ∧
    (Vec4A.wwyw s).logical = (s.w, s.w, s.y, s.w) ∧
    (Vec4A.wwzx s).logical = (s.w, s.w, s.z, s.x) ∧
    (Vec4A.wwzy s).logical = (s.w, s.w, s.z, s.y) ∧
    (Vec4A.wwzz s).logical = (s.w, s.w, s.z, s.z) ∧
    (Vec4A.wwzw s).logical = (s.w, s.w, s.z, s.w) ∧
    (Vec4A.wwwx s).logical = (s.w, s.w, s.w, s.x) ∧
    (Vec4A.wwwy s).logical = (s.w, s.w, s.w, s.y) ∧
    (Vec4A.wwwz s).logical = (s.w, s.w, s.w, s.z) ∧
    (Vec4A.wwww s).logical = (s.w, s.w, s.w, s.w) :=
  ⟨rfl, rfl, rfl, rfl, rfl, rfl, rfl, rfl, rfl, rfl, rfl, rfl, rfl, rfl, rfl, rfl, rfl, rfl, rfl, rfl, rfl, rfl, rfl, rfl, rfl, rfl, rfl, rfl, rfl, rfl, rfl, rfl, rfl, rfl, rfl, rfl, rfl, rfl, rfl, rfl, rfl, rfl, rfl, rfl, rfl, rfl, rfl, rfl, rfl, rfl, rfl, rfl, rfl, rfl, rfl, rfl, rfl, rfl, rfl, rfl, rfl, rfl, rfl, rfl, rfl, rfl, rfl, rfl, rfl, rfl, rfl, rfl, rfl, rfl, rfl, rfl, rfl, rfl, rfl, rfl, rfl, rfl, rfl, rfl, rfl, rfl, rfl, rfl, rfl, rfl, rfl, rfl, rfl, rfl, rfl, rfl, rfl, rfl, rfl, rfl, rfl, rfl, rfl, rfl, rfl, rfl, rfl, rfl, rfl, rfl, rfl, rfl, rfl, rfl, rfl, rfl, rfl, rfl, rfl, rfl, rfl, rfl, rfl, rfl, rfl, rfl, rfl, rfl, rfl, rfl, rfl, rfl, rfl, rfl, rfl, rfl, rfl, rfl, rfl, rfl, rfl, rfl, rfl, rfl, rfl, rfl, rfl, rfl, rfl, rfl, rfl, rfl, rfl, rfl, rfl, rfl, rfl, rfl, rfl, rfl, rfl, rfl, rfl, rfl, rfl, rfl, rfl, rfl, rfl, rfl, rfl, rfl, rfl, rfl, rfl, rfl, rfl, rfl, rfl, rfl, rfl, rfl, rfl, rfl, rfl, rfl, rfl, rfl, rfl, rfl, rfl, rfl, rfl, rfl, rfl, rfl, rfl, rfl, rfl, rfl, rfl, rfl, rfl, rfl, rfl, rfl, rfl, rfl, rfl, rfl, rfl, rfl, rfl, rfl, rfl, rfl, rfl, rfl, rfl, rfl, rfl, rfl, rfl, rfl, rfl, rfl, rfl, rfl, rfl, rfl, rfl, rfl, rfl, rfl, rfl, rfl, rfl, rfl, rfl, rfl, rfl, rfl, rfl, rfl, rfl, rfl, rfl, rfl, rfl, rfl, rfl, rfl, rfl, rfl, rfl, rfl, rfl, rfl, rfl, rfl, rfl, rfl, rfl, rfl, rfl, rfl, rfl, rfl, rfl, rfl, rfl, rfl, rfl, rfl, rfl, rfl, rfl, rfl, rfl, rfl, rfl, rfl, rfl, rfl, rfl, rfl, rfl, rfl, rfl, rfl, rfl, rfl, rfl, rfl, rfl, rfl, rfl, rfl, rfl, rfl, rfl, rfl, rfl, rfl, rfl, rfl, rfl, rfl, rfl, rfl, rfl, rfl, rfl, rfl, rfl, rfl, rfl, rfl, rfl, rfl, rfl, rfl, rfl, rfl, rfl, rfl, rfl, rfl, rfl, rfl, rfl, rfl, rfl, rfl, rfl, rfl⟩

/-- C9: every three-component swizzle result carries `s.x` in its hidden
fourth storage lane (every generated shuffle uses index 4 — lane 0 of the
second operand, which is the same input vector — in the last position), so
the padding lane is a fixed function of the logical input components. -/
theorem swizzle3_padding_is_x (s : Vec4A) :
    (Vec4A.xxx s).padding = s.x ∧
    (Vec4A.xxy s).padding = s.x ∧
    (Vec4A.xxz s).padding = s.x ∧
    (Vec4A.xxw s).padding = s.x ∧
    (Vec4A.xyx s).padding = s.x ∧
    (Vec4A.xyy s).padding = s.x ∧
    (Vec4A.xyz s).padding = s.x ∧
    (Vec4A.xyw s).padding = s.x ∧
    (Vec4A.xzx s).padding = s.x ∧
    (Vec4A.xzy s).padding = s.x ∧
    (Vec4A.xzz s).padding = s.x ∧
    (Vec4A.xzw s).padding = s.x ∧
    (Vec4A.xwx s).padding = s.x ∧
    (Vec4A.xwy s).padding = s.x ∧
    (Vec4A.xwz s).padding = s.x ∧
    (Vec4A.xww s).padding = s.x ∧
    (Vec4A.yxx s).padding = s.x ∧
    (Vec4A.yxy s).padding = s.x ∧
    (Vec4A.yxz s).padding = s.x ∧
    (Vec4A.yxw s).padding = s.x ∧
    (Vec4A.yyx s).padding = s.x ∧
    (Vec4A.yyy s).padding = s.x ∧
    (Vec4A.yyz s).padding = s.x ∧
    (Vec4A.yyw s).padding = s.x ∧
    (Vec4A.yzx s).padding = s.x ∧
    (Vec4A.yzy s).padding = s.x ∧
    (Vec4A.yzz s).padding = s.x ∧
    (Vec4A.yzw s).padding = s.x ∧
    (Vec4A.ywx s).padding = s.x ∧
    (Vec4A.ywy s).padding = s.x ∧
    (Vec4A.ywz s).padding = s.x ∧
    (Vec4A.yww s).padding = s.x ∧
    (Vec4A.zxx s).padding = s.x ∧
    (Vec4A.zxy s).padding = s.x ∧
    (Vec4A.zxz s).padding = s.x ∧
    (Vec4A.zxw s).padding = s.x ∧
    (Vec4A.zyx s).padding = s.x ∧
    (Vec4A.zyy s).padding = s.x ∧
    (Vec4A.zyz s).padding = s.x ∧
    (Vec4A.zyw s).padding = s.x ∧
    (Vec4A.zzx s).padding = s.x ∧
    (Vec4A.zzy s).padding = s.x ∧
    (Vec4A.zzz s).padding = s.x ∧
    (Vec4A.zzw s).padding = s.x ∧
    (Vec4A.zwx s).padding = s.x ∧
    (Vec4A.zwy s).padding = s.x ∧
    (Vec4A.zwz s).padding = s.x ∧
    (Vec4A.zww s).padding = s.x ∧
    (Vec4A.wxx s).padding = s.x ∧
    (Vec4A.wxy s).padding = s.x ∧
    (Vec4A.wxz s).padding = s.x ∧
    (Vec4A.wxw s).padding = s.x ∧
    (Vec4A.wyx s).padding = s.x ∧
    (Vec4A.wyy s).padding = s.x ∧
    (Vec4A.wyz s).padding = s.x ∧
    (Vec4A.wyw s).padding = s.x ∧
    (Vec4A.wzx s).padding = s.x ∧
    (Vec4A.wzy s).padding = s.x ∧
    (Vec4A.wzz s).padding = s.x ∧
    (Vec4A.wzw s).padding = s.x ∧
    (Vec4A.wwx s).padding = s.x ∧
    (Vec4A.wwy s).padding = s.x ∧
    (Vec4A.wwz s).padding = s.x ∧
    (Vec4A.www s).padding = s.x :=
  ⟨rfl, rfl, rfl, rfl, rfl, rfl, rfl, rfl, rfl, rfl, rfl, rfl, rfl, rfl, rfl, rfl, rfl, rfl, rfl, rfl, rfl, rfl, rfl, rfl, rfl, rfl, rfl, rfl, rfl, rfl, rfl, rfl, rfl, rfl, rfl, rfl, rfl, rfl, rfl, rfl, rfl, rfl, rfl, rfl, rfl, rfl, rfl, rfl, rfl, rfl, rfl, rfl, rfl, rfl, rfl, rfl, rfl, rfl, rfl, rfl, rfl, rfl, rfl, rfl⟩

/-! ## Generic four-component swizzle and composition (C8)

Every generated four-component swizzle method is an instance of the shuffle
pattern `i32x4_shuffle::<p0, p1, p2+4, p3+4>(self.0, self.0)`; `swizzle4`
abstracts that pattern over the permutation. -/

def swizzle4 (p : Fin 4 → Fin 4) (s : Vec4A) : Vec4A :=
  ⟨i32x4_shuffle (p 0).val (p 1).val ((p 2).val + 4) ((p 3).val + 4) s.v s.v⟩

/-- Lane read of a `Vec4A` at a `Fin 4` position. -/
def getLane (s : Vec4A) : Fin 4 → Nat
  | 0 => s.v.l0
  | 1 => s.v.l1
  | 2 => s.v.l2
  | 3 => s.v.l3

lemma laneSel_val (s : Vec4A) (j : Fin 4) :
    laneSel s.v s.v j.val = getLane s j := by
  fin_cases j <;> rfl

lemma laneSel_val_add4 (s : Vec4A) (j : Fin 4) :
    laneSel s.v s.v (j.val + 4) = getLane s j := by
  fin_cases j <;> rfl

lemma swizzle4_eq (p : Fin 4 → Fin 4) (s : Vec4A) :
    swizzle4 p s = ⟨⟨getLane s (p 0), getLane s (p 1), getLane s (p 2), getLane s (p 3)⟩⟩ := by
  simp [swizzle4, i32x4_shuffle, laneSel_val, laneSel_val_add4]

lemma getLane_swizzle4 (p : Fin 4 → Fin 4) (s : Vec4A) (j : Fin 4) :
    getLane (swizzle4 p s) j = getLane s (p j) := by
  rw [swizzle4_eq]
  fin_cases j <;> rfl

/-- C8: four-component swizzles compose — applying the swizzle with
permutation `p` and then the one with permutation `q` equals the single
swizzle whose output slot `i` selects source component `p (q i)`; the
named methods are instances of `swizzle4` (shown for `wzyx` and `xyzw`),
and in particular `v.wzyx().wzyx() = v.xyzw() = v` bit-for-bit. -/
theorem swizzle4_compose :
    (∀ (p q : Fin 4 → Fin 4) (s : Vec4A),
        swizzle4 q (swizzle4 p s) = swizzle4 (fun i => p (q i)) s) ∧
    (∀ s : Vec4A, Vec4A.wzyx s = swizzle4 (fun i => 3 - i) s) ∧
    (∀ s : Vec4A, Vec4A.xyzw s = swizzle4 (fun i => i) s) ∧
    (∀ s : Vec4A, Vec4A.wzyx (Vec4A.wzyx s) = Vec4A.xyzw s ∧ Vec4A.xyzw s = s) := by
  refine ⟨?_, ?_, ?_, ?_⟩
  · intro p q s
    rw [swizzle4_eq q, swizzle4_eq (fun i => p (q i))]
    simp [getLane_swizzle4]
  · intro s
    rfl
  · intro s
    rfl
  · intro s
    exact ⟨rfl, rfl⟩

/-! ## Scalar math facade: sign-bit functions on IEEE-754 bit patterns

`f32` values are modelled by their bit patterns (`Nat < 2^32`, sign bit 31),
`f64` values by `Nat < 2^64` (sign bit 63). Rust's unary `-` on a float
flips the sign bit; `copysign` keeps the magnitude bits of the first
argument and takes the sign bit of the second; `x != x` holds exactly when
`x` is a NaN (exponent all ones, nonzero mantissa). -/

/-- `is_sign_negative_f32`: `v.to_bits() >> 31 != 0`. -/
def is_sign_negative_f32 (b : Nat) : Bool := b >>> 31 != 0

/-- `is_sign_positive_f32`: `v.to_bits() >> 31 == 0`. -/
def is_sign_positive_f32 (b : Nat) : Bool := b >>> 31 == 0

/-- `is_sign_negative_f64`: `v.to_bits() >> 63 != 0`. -/
def is_sign_negative_f64 (b : Nat) : Bool := b >>> 63 != 0

/-- `is_sign_positive_f64`: `v.to_bits() >> 63 == 0`. -/
def is_sign_positive_f64 (b : Nat) : Bool := b >>> 63 == 0

/-- IEEE-754 negation on f32 bit patterns: flip the sign bit. -/
def negBitsF32 (b : Nat) : Nat := if b < 2 ^ 31 then b + 2 ^ 31 else b - 2 ^ 31

/-- IEEE-754 negation on f64 bit patterns: flip the sign bit. -/
def negBitsF64 (b : Nat) : Nat := if b < 2 ^ 63 then b + 2 ^ 63 else b - 2 ^ 63

/-- NaN test on f32 bit patterns: magnitude bits above those of infinity.
This is also the semantics of the default `Float::is_nan` (`self != self`),
since IEEE equality of a value with itself fails exactly for NaN. -/
def isNaNBitsF32 (b : Nat) : Bool := 0x7F800000 < b % 2 ^ 31

/-- NaN test on f64 bit patterns. -/
def isNaNBitsF64 (b : Nat) : Bool := 0x7FF0000000000000 < b % 2 ^ 63

/-- Bit pattern of `f32::NAN` (the value of `Float::nan()` for f32). -/
def nanBitsF32 : Nat := 0x7FC00000

/-- Bit pattern of `f64::NAN`. -/
def nanBitsF64 : Nat := 0x7FF8000000000000

/-- Bit pattern of `1.0f32` (the value of `Float::one()` for f32). -/
def oneBitsF32 : Nat := 0x3F800000

/-- Bit pattern of `1.0f64`. -/
def oneBitsF64 : Nat := 0x3FF0000000000000

/-- `copysign` (libm and std agree): magnitude bits of `x`, sign bit of `s`. -/
def copysignBitsF32 (x s : Nat) : Nat := x % 2 ^ 31 + s / 2 ^ 31 % 2 * 2 ^ 31

/-- `copysign` for f64 bit patterns. -/
def copysignBitsF64 (x s : Nat) : Nat := x % 2 ^ 63 + s / 2 ^ 63 % 2 * 2 ^ 63

/-- The default `Float::abs` on f32 bit patterns:
`if is_sign_positive { self } else if is_sign_negative { -self } else { nan }`. -/
def absF32 (b : Nat) : Nat :=
  if is_sign_positive_f32 b then b
  else if is_sign_negative_f32 b then negBitsF32 b
  else nanBitsF32

/-- The default `Float::abs` on f64 bit patterns. -/
def absF64 (b : Nat) : Nat :=
  if is_sign_positive_f64 b then b
  else if is_sign_negative_f64 b then negBitsF64 b
  else nanBitsF64

/-- The default `Float::signum` on f32 bit patterns:
`if self.is_nan() { nan } else { one.copysign(self) }`. -/
def signumF32 (b : Nat) : Nat :=
  if isNaNBitsF32 b then nanBitsF32 else copysignBitsF32 oneBitsF32 b

/-- The default `Float::signum` on f64 bit patterns. -/
def signumF64 (b : Nat) : Nat :=
  if isNaNBitsF64 b then nanBitsF64 else copysignBitsF64 oneBitsF64 b

lemma shiftRight31 (b : Nat) : b >>> 31 = b / 2 ^ 31 := Nat.shiftRight_eq_div_pow b 31

lemma shiftRight63 (b : Nat) : b >>> 63 = b / 2 ^ 63 := Nat.shiftRight_eq_div_pow b 63

lemma absF32_eq_mod (b : Nat) (hb : b < 2 ^ 32) : absF32 b = b % 2 ^ 31 := by
  simp only [absF32, is_sign_positive_f32, is_sign_negative_f32, negBitsF32,
    shiftRight31, beq_iff_eq, bne_iff_ne, ne_eq, ite_not]
  split <;> (try split) <;> omega

lemma absF64_eq_mod (c : Nat) (hc : c < 2 ^ 64) : absF64 c = c % 2 ^ 63 := by
  simp only [absF64, is_sign_positive_f64, is_sign_negative_f64, negBitsF64,
    shiftRight63, beq_iff_eq, bne_iff_ne, ne_eq, ite_not]
  split <;> (try split) <;> omega

/-- C6: the default `abs` clears the sign bit — for every 32-bit (64-bit)
pattern `b` the result is `b` with the sign bit set to 0; in particular
`abs(-0.0) = +0.0` and `abs` of a NaN pattern is again a NaN pattern. -/
theorem abs_clears_sign_bit (b c : Nat) (hb : b < 2 ^ 32) (hc : c < 2 ^ 64) :
    absF32 b = b % 2 ^ 31 ∧
    absF32 0x80000000 = 0 ∧
    (isNaNBitsF32 b = true → isNaNBitsF32 (absF32 b) = true) ∧
    absF64 c = c % 2 ^ 63 ∧
    absF64 0x8000000000000000 = 0 ∧
    (isNaNBitsF64 c = true → isNaNBitsF64 (absF64 c) = true) := by
  have h32 := absF32_eq_mod b hb
  have h64 := absF64_eq_mod c hc
  refine ⟨h32, by decide, ?_, h64, by decide, ?_⟩
  · intro hnan
    rw [h32]
    simp only [isNaNBitsF32, decide_eq_true_eq] at hnan ⊢
    omega
  · intro hnan
    rw [h64]
    simp only [isNaNBitsF64, decide_eq_true_eq] at hnan ⊢
    omega

/-- C6 witness: instantiation at a negative f32 NaN pattern and a negative
f64 NaN pattern. -/
theorem abs_clears_sign_bit_witness :
    (0xFFC00000 : Nat) < 2 ^ 32 ∧ (0xFFF8000000000000 : Nat) < 2 ^ 64 ∧
    absF32 0xFFC00000 = 0xFFC00000 % 2 ^ 31 ∧
    (isNaNBitsF32 0xFFC00000 = true → isNaNBitsF32 (absF32 0xFFC00000) = true) :=
  ⟨by decide, by decide,
    (abs_clears_sign_bit 0xFFC00000 0xFFF8000000000000 (by decide) (by decide)).1,
    (abs_clears_sign_bit 0xFFC00000 0xFFF8000000000000 (by decide) (by decide)).2.2.1⟩

/-- C10: the two sign-bit tests are complementary on every bit pattern
(exactly one holds, NaN patterns included); consequently the `Self::nan()`
fallback branch of the default `abs` is unreachable — every result comes
from the first two branches — and `abs` never turns a non-NaN pattern into
a NaN pattern. -/
theorem sign_tests_complementary (b c : Nat) (hb : b < 2 ^ 32) (hc : c < 2 ^ 64) :
    (∀ a : Nat, is_sign_positive_f32 a = true ↔ ¬ is_sign_negative_f32 a = true) ∧
    (∀ a : Nat, is_sign_positive_f64 a = true ↔ ¬ is_sign_negative_f64 a = true) ∧
    (absF32 b = b ∨ absF32 b = negBitsF32 b) ∧
    (absF64 c = c ∨ absF64 c = negBitsF64 c) ∧
    (isNaNBitsF32 b = false → isNaNBitsF32 (absF32 b) = false) ∧
    (isNaNBitsF64 c = false → isNaNBitsF64 (absF64 c) = false) := by
  refine ⟨?_, ?_, ?_, ?_, ?_, ?_⟩
  · intro a
    simp [is_sign_positive_f32, is_sign_negative_f32]
  · intro a
    simp [is_sign_positive_f64, is_sign_negative_f64]
  · rw [absF32_eq_mod b hb]
    simp only [negBitsF32]
    rcases Nat.lt_or_ge b (2 ^ 31) with h | h
    · exact Or.inl (by omega)
    · exact Or.inr (by rw [if_neg (by omega)]; omega)
  · rw [absF64_eq_mod c hc]
    simp only [negBitsF64]
    rcases Nat.lt_or_ge c (2 ^ 63) with h | h
    · exact Or.inl (by omega)
    · exact Or.inr (by rw [if_neg (by omega)]; omega)
  · intro h
    rw [absF32_eq_mod b hb]
    simp only [isNaNBitsF32, decide_eq_false_iff_not, not_lt] at h ⊢
    omega
  · intro h
    rw [absF64_eq_mod c hc]
    simp only [isNaNBitsF64, decide_eq_false_iff_not, not_lt] at h ⊢
    omega

/-- C10 witness: instantiation at `-0.0f32` and at the f64 pattern 1. -/
theorem sign_tests_complementary_witness :
    (0x80000000 : Nat) < 2 ^ 32 ∧ (1 : Nat) < 2 ^ 64 ∧
    (absF32 0x80000000 = 0x80000000 ∨ absF32 0x80000000 = negBitsF32 0x80000000) :=
  ⟨by decide, by decide,
    (sign_tests_complementary 0x80000000 1 (by decide) (by decide)).2.2.1⟩

/-- C7: `signum(0.0) = 1.0`, `signum(-0.0) = -1.0`, `signum` of a NaN
pattern is the canonical NaN pattern, and on every non-NaN pattern the
result is `+1.0` or `-1.0` according to the input's sign bit. -/
theorem signum_sign_of (b c : Nat) (hb : b < 2 ^ 32) (hc : c < 2 ^ 64) :
    signumF32 0 = oneBitsF32 ∧
    signumF32 0x80000000 = 0xBF800000 ∧
    (isNaNBitsF32 b = true → signumF32 b = nanBitsF32) ∧
    isNaNBitsF32 nanBitsF32 = true ∧
    (isNaNBitsF32 b = false →
      signumF32 b = if is_sign_negative_f32 b then 0xBF800000 else oneBitsF32) ∧
    signumF64 0 = oneBitsF64 ∧
    signumF64 0x8000000000000000 = 0xBFF0000000000000 ∧
    (isNaNBitsF64 c = true → signumF64 c = nanBitsF64) ∧
    isNaNBitsF64 nanBitsF64 = true ∧
    (isNaNBitsF64 c = false →
      signumF64 c = if is_sign_negative_f64 c then 0xBFF0000000000000 else oneBitsF64) := by
  refine ⟨by decide, by decide, ?_, by decide, ?_, by decide, by decide, ?_, by decide, ?_⟩
  · intro h
    simp [signumF32, h]
  · intro h
    simp only [signumF32, h, Bool.false_eq_true, if_false,
      copysignBitsF32, oneBitsF32, is_sign_negative_f32, shiftRight31,
      bne_iff_ne, ne_eq, ite_not]
    split <;> omega
  · intro h
    simp [signumF64, h]
  · intro h
    simp only [signumF64, h, Bool.false_eq_true, if_false,
      copysignBitsF64, oneBitsF64, is_sign_negative_f64, shiftRight63,
      bne_iff_ne, ne_eq, ite_not]
    split <;> omega

/-- C7 witness: instantiation at the f32 NaN pattern and the f64 pattern 1. -/
theorem signum_sign_of_witness :
    (0x7FC00000 : Nat) < 2 ^ 32 ∧ (1 : Nat) < 2 ^ 64 ∧ signumF32 0 = oneBitsF32 :=
  ⟨by decide, by decide, (signum_sign_of 0x7FC00000 1 (by decide) (by decide)).1⟩

/-! ## Scalar math facade: the acos family on finite values

Finite float values are modelled by `ℚ`; a NaN result of the external
library `acos` is modelled by `none : Option ℚ`. The external `acos`
(`libm::acosf`, `libm::acos`, `f32::acos`, `f64::acos`) and `sqrt`
implementations are abstracted as function parameters. -/

/-- Rust `f32::clamp`/`f64::clamp` on finite values (for `min ≤ max`):
`if self < min { min } else if self > max { max } else { self }`. -/
def clampQ (x lo hi : ℚ) : ℚ := if x < lo then lo else if hi < x then hi else x

/-- `impl Float for f32` (libm provider): `libm::acosf(self.clamp(-1.0, 1.0))`. -/
def acos_clamped_f32_libm (acosf : ℚ → Option ℚ) (x : ℚ) : Option ℚ :=
  acosf (clampQ x (-1) 1)

/-- `impl Float for f64` (libm provider): `libm::acos(self.clamp(-1.0, 1.0))`. -/
def acos_clamped_f64_libm (acosd : ℚ → Option ℚ) (x : ℚ) : Option ℚ :=
  acosd (clampQ x (-1) 1)

/-- `impl Float for f32` (native provider): `f32::acos(self.clamp(-1.0, 1.0))`. -/
def acos_clamped_f32_native (acosf : ℚ → Option ℚ) (x : ℚ) : Option ℚ :=
  acosf (clampQ x (-1) 1)

/-- `impl Float for f64` (native provider): `f64::acos(self)` — the argument
is passed to the external `acos` without clamping. -/
def acos_clamped_f64_native (acosd : ℚ → Option ℚ) (x : ℚ) : Option ℚ :=
  acosd x

/-- Trait default `Float::acos_approx`, as inherited by the f64 libm impl
(which does not override it): `Self::acos_clamped(self)`. -/
def acos_approx_f64_libm (acosd : ℚ → Option ℚ) (x : ℚ) : Option ℚ :=
  acos_clamped_f64_libm acosd x

/-- Trait default `Float::acos_approx`, as inherited by the f64 native impl. -/
def acos_approx_f64_native (acosd : ℚ → Option ℚ) (x : ℚ) : Option ℚ :=
  acos_clamped_f64_native acosd x

/-- Exact rational value of `core::f32::consts::PI` (bit pattern
`0x40490FDB`). -/
def pi_f32 : ℚ := 13176795 / 4194304

/-- `acos_approx_f32` from the source: mirror the sign, take
`sqrt(1 - |v|)` (floored at 0), run the 7-degree minimax polynomial in
`|v|` by Horner, scale by the root, and undo the mirror. The external
`sqrt` is a parameter. -/
def acos_approx_f32 (sqrtf : ℚ → ℚ) (v : ℚ) : ℚ :=
  let x := |v|
  let omx0 := 1 - x
  let omx := if omx0 < 0 then 0 else omx0
  let root := sqrtf omx
  let result :=
    ((((((-(12624911 / 10 ^ 10) * x + 667009 / 10 ^ 8) * x - 17088126 / 10 ^ 9) * x
      + 3089188 / 10 ^ 8) * x - 50174303 / 10 ^ 9) * x + 8897899 / 10 ^ 8) * x
      - 2145988 / 10 ^ 7) * x + 15707963 / 10 ^ 7
  let result2 := result * root
  if 0 ≤ v then result2 else pi_f32 - result2

/-- `impl Float for f32` (libm provider) overrides `acos_approx` with
`acos_approx_f32(self)`. -/
def acos_approx_f32_libm (sqrtf : ℚ → ℚ) (v : ℚ) : ℚ := acos_approx_f32 sqrtf v

/-- `impl Float for f32` (native provider) overrides `acos_approx` with
`acos_approx_f32(self)`. -/
def acos_approx_f32_native (sqrtf : ℚ → ℚ) (v : ℚ) : ℚ := acos_approx_f32 sqrtf v

/-- Horner evaluation of a polynomial given by its coefficient list,
leading coefficient first. -/
def horner (cs : List ℚ) (x : ℚ) : ℚ := cs.foldl (fun acc c => acc * x + c) 0

/-- Modelled from the spec: the documented `acos_approx` algorithm — mirror
negative inputs via `acos(-x) = π - acos(x)`, compute
`sqrt(max(0, 1 - |x|))` as a common factor, evaluate the degree-7
polynomial in `|x|` via Horner's method with the documented coefficients,
multiply by the square-root factor, then apply the mirror correction. -/
def acos_approx_spec (sqrtf : ℚ → ℚ) (v : ℚ) : ℚ :=
  let a := |v|
  let root := sqrtf (max 0 (1 - a))
  let p := horner [-(12624911 / 10 ^ 10), 667009 / 10 ^ 8, -(17088126 / 10 ^ 9),
    3089188 / 10 ^ 8, -(50174303 / 10 ^ 9), 8897899 / 10 ^ 8,
    -(2145988 / 10 ^ 7), 15707963 / 10 ^ 7] a * root
  if 0 ≤ v then p else pi_f32 - p

/-- C3: `acos_approx_f32` (and with it both f32 provider impls of
`acos_approx`) computes exactly the documented steps: sign mirror on
`v ≥ 0`, square root of `max(0, 1 - |v|)`, degree-7 Horner polynomial in
`|v|` with the documented coefficients, multiplication by the root, and
`π - result` for negative inputs. -/
theorem acos_approx_follows_spec (sqrtf : ℚ → ℚ) (v : ℚ) :
    acos_approx_f32 sqrtf v = acos_approx_spec sqrtf v ∧
    acos_approx_f32_libm sqrtf v = acos_approx_spec sqrtf v ∧
    acos_approx_f32_native sqrtf v = acos_approx_spec sqrtf v := by
  have hmax : (if 1 - |v| < 0 then (0 : ℚ) else 1 - |v|) = max 0 (1 - |v|) := by
    rcases lt_or_le (1 - |v|) 0 with h | h
    · rw [if_pos h, max_eq_left h.le]
    · rw [if_neg (not_lt.mpr h), max_eq_right h]
  have hbase : acos_approx_f32 sqrtf v = acos_approx_spec sqrtf v := by
    simp only [acos_approx_f32, acos_approx_spec, horner, List.foldl, hmax]
    rcases le_or_lt 0 v with hv | hv
    · rw [if_pos hv, if_pos hv]
      ring
    · rw [if_neg (not_le.mpr hv), if_neg (not_le.mpr hv)]
      ring
  exact ⟨hbase, hbase, hbase⟩

/-- C1: for any external `acos` that is NaN exactly outside `[-1, 1]`, the
f32 impls (both providers) and the libm f64 impl of `acos_clamped` apply
`acos` to the clamped argument — out-of-range finite inputs land on
`acos(1)` resp. `acos(-1)` and are never NaN — but the native-provider f64
impl passes its argument unclamped: at `x = 2` it returns NaN instead of
`acos(1) = 0`. -/
theorem acos_clamped_f64_native_missing_clamp
    (acosd : ℚ → Option ℚ)
    (hdom : ∀ x : ℚ, acosd x = none ↔ x < -1 ∨ 1 < x) :
    (∀ x : ℚ, 1 < x →
      acos_clamped_f32_libm acosd x = acosd 1 ∧
      acos_clamped_f32_native acosd x = acosd 1 ∧
      acos_clamped_f64_libm acosd x = acosd 1) ∧
    (∀ x : ℚ, x < -1 →
      acos_clamped_f32_libm acosd x = acosd (-1) ∧
      acos_clamped_f32_native acosd x = acosd (-1) ∧
      acos_clamped_f64_libm acosd x = acosd (-1)) ∧
    (∀ x : ℚ, (acosd (clampQ x (-1) 1)).isSome) ∧
    acos_clamped_f64_native acosd 2 = none := by
  have hclamp_hi : ∀ x : ℚ, 1 < x → clampQ x (-1) 1 = 1 := by
    intro x hx
    rw [clampQ, if_neg (by linarith), if_pos hx]
  have hclamp_lo : ∀ x : ℚ, x < -1 → clampQ x (-1) 1 = -1 := by
    intro x hx
    rw [clampQ, if_pos hx]
  refine ⟨?_, ?_, ?_, ?_⟩
  · intro x hx
    refine ⟨?_, ?_, ?_⟩ <;>
      simp only [acos_clamped_f32_libm, acos_clamped_f32_native,
        acos_clamped_f64_libm, hclamp_hi x hx]
  · intro x hx
    refine ⟨?_, ?_, ?_⟩ <;>
      simp only [acos_clamped_f32_libm, acos_clamped_f32_native,
        acos_clamped_f64_libm, hclamp_lo x hx]
  · intro x
    have hin : ¬ (clampQ x (-1) 1 < -1 ∨ 1 < clampQ x (-1) 1) := by
      rw [clampQ]
      split <;> rename_i h1
      · push_neg
        constructor <;> linarith
      · split <;> rename_i h2
        · push_neg
          constructor <;> linarith
        · push_neg
          constructor <;> linarith
    rcases hsome : acosd (clampQ x (-1) 1) with _ | y
    · exact absurd ((hdom _).mp hsome) hin
    · rfl
  · rw [acos_clamped_f64_native, (hdom 2).mpr (Or.inr (by norm_num))]

/-- A concrete stand-in for the external `acos`: defined (with an arbitrary
finite value) on `[-1, 1]`, NaN outside — the domain behaviour shared by
`libm::acos` and `f64::acos`. -/
def acosModel (x : ℚ) : Option ℚ := if x < -1 ∨ 1 < x then none else some (1 - x)

/-- C1 witness: with the concrete `acosModel`, the native f64 `acos_clamped`
is NaN at the finite input 2 while the libm f64 impl returns `acos(1)`. -/
theorem acos_clamped_f64_native_missing_clamp_witness :
    (∀ x : ℚ, acosModel x = none ↔ x < -1 ∨ 1 < x) ∧
    acos_clamped_f64_native acosModel 2 = none :=
  ⟨fun x => by
      by_cases h : x < -1 ∨ 1 < x <;> simp [acosModel, h],
    (acos_clamped_f64_native_missing_clamp acosModel (fun x => by
      by_cases h : x < -1 ∨ 1 < x <;> simp [acosModel, h])).2.2.2⟩

/-- C2 counterexample: for the 64-bit scalar type, `acos_approx` IS the same
function as `acos_clamped` under both providers — the f64 impls inherit the
trait default `acos_approx(self) = Self::acos_clamped(self)`. -/
theorem acos_approx_f64_is_acos_clamped :
    acos_approx_f64_libm = acos_clamped_f64_libm ∧
    acos_approx_f64_native = acos_clamped_f64_native :=
  ⟨rfl, rfl⟩

/-- C2 amended: the polynomial `acos_approx_f32` is a function of `sqrt`
alone — it takes no `acos` and calls none — and only the f32 impls override
`acos_approx` with it; for f64 (both providers) `acos_approx` falls back to
the trait default and coincides with `acos_clamped`, which delegates to the
exact library `acos`. -/
theorem acos_approx_polynomial_only_f32 :
    (∀ (sqrtf : ℚ → ℚ) (v : ℚ),
      acos_approx_f32_libm sqrtf v = acos_approx_f32 sqrtf v ∧
      acos_approx_f32_native sqrtf v = acos_approx_f32 sqrtf v) ∧
    acos_approx_f64_libm = acos_clamped_f64_libm ∧
    acos_approx_f64_native = acos_clamped_f64_native :=
  ⟨fun _ _ => ⟨rfl, rfl⟩, rfl, rfl⟩
